import Mathlib

/-!
# Transmeet — verification of the spec's claims against the source

Shallow embedding of the Transmeet backend (TypeScript, Hono + Prisma) core:
the Zoom OAuth token manager, the recording import pipeline (single and
batch), meeting sync, analysis, export rendering and the notification
service.  External effects (HTTP calls to Zoom, SMTP, Slack, the filesystem,
the MD5 digest) are modelled as explicit function parameters (environments);
the relational database is an explicit in-memory state threaded through the
operations.  JavaScript truthiness (`!x`, `x || null`) is modelled exactly:
`null`/`undefined` and the empty string are falsy.
-/

namespace Transmeet

/-- A byte buffer (`Buffer` in the source). -/
abbrev Bytes := List Nat

/-- Model of Hono's `HTTPException(status, { message })`. -/
structure HttpError where
  status : Nat
  message : String
deriving Repr, DecidableEq

/-- JavaScript truthiness of an optional string: `null` and `""` are falsy.
Used to model checks such as `!user.accessToken` or `!meeting.recordingUrl`. -/
def jsFalsy : Option String → Bool
  | none => true
  | some s => s.isEmpty

/-- Model of the JavaScript expression `s || null` applied to a string-valued
field before persisting it: the empty string is falsy, hence stored as NULL. -/
def orNullStr (s : String) : Option String :=
  if s.isEmpty then none else some s

/-- JavaScript's `String.prototype.toUpperCase` (ASCII, which covers every
enum string the code upper-cases). -/
def toUpperCase (s : String) : String := String.mk (s.data.map Char.toUpper)

/-! ## OAuth token manager (`ZoomService.getValidAccessToken`,
`src/backend/src/services/export.service.ts` lines 708–745) -/

/-- The token fields of a `User` row selected by `getValidAccessToken`
(`accessToken`, `refreshToken`, `tokenExpiresAt`; expiry in epoch ms). -/
structure UserTokens where
  accessToken : Option String
  refreshToken : Option String
  tokenExpiresAt : Option Int
deriving Repr, DecidableEq

/-- Zoom's token endpoint response (`ZoomTokenResponse`): `access_token`,
`refresh_token`, `expires_in` (seconds). -/
structure ZoomTokenResponse where
  access_token : String
  refresh_token : String
  expires_in : Int
deriving Repr, DecidableEq

/-- `HTTPException(401, 'Zoom authentication required')`. -/
def authRequiredErr : HttpError := ⟨401, "Zoom authentication required"⟩

/-- `HTTPException(401, 'Zoom re-authentication required')`. -/
def reauthRequiredErr : HttpError := ⟨401, "Zoom re-authentication required"⟩

/-- `HTTPException(400, 'Failed to refresh access token')`, thrown by
`ZoomService.refreshAccessToken` when the provider call fails. -/
def refreshFailedErr : HttpError := ⟨400, "Failed to refresh access token"⟩

/-- `ZoomService.getValidAccessToken`, embedded with explicit state passing.

* `now` — the value of `new Date()` at call time (epoch ms);
* `refreshEndpoint` — the provider's refresh endpoint
  (`ZoomService.refreshAccessToken`): `none` models a provider failure,
  which the source turns into `HTTPException(400, ...)`;
* `user` — the row returned by `prisma.user.findUnique` (`none` = no row).

Returns the access token together with the user record as persisted
(`prisma.user.update` on the refresh path rewrites `accessToken`,
`refreshToken` and `tokenExpiresAt := now + expires_in * 1000`). -/
def getValidAccessToken (now : Int)
    (refreshEndpoint : String → Option ZoomTokenResponse)
    (user : Option UserTokens) :
    Except HttpError (String × Option UserTokens) :=
  match user with
  | none => .error authRequiredErr
  | some u =>
    if jsFalsy u.accessToken then .error authRequiredErr
    else
      match u.tokenExpiresAt with
      | some exp =>
        if exp ≤ now then
          if jsFalsy u.refreshToken then .error reauthRequiredErr
          else
            match u.refreshToken with
            | none => .error reauthRequiredErr
            | some rt =>
              match refreshEndpoint rt with
              | none => .error refreshFailedErr
              | some tokens =>
                let updated : UserTokens :=
                  { accessToken := some tokens.access_token
                    refreshToken := some tokens.refresh_token
                    tokenExpiresAt := some (now + tokens.expires_in * 1000) }
                .ok (tokens.access_token, some updated)
        else
          .ok (u.accessToken.getD "", user)
      | none => .ok (u.accessToken.getD "", user)

/-! ## Relational data model (`prisma/migrations/20250907072642_init`) -/

/-- A `Meeting` row (the columns the embedded operations touch).
`zoomMeetingId` is `TEXT NOT NULL` with a unique index
(`Meeting_zoomMeetingId_key`); route guards of the form
`!meeting.zoomMeetingId` therefore test for the empty string.
`startTime`/`endTime` are epoch-ms timestamps. -/
structure MeetingRow where
  id : String
  userId : String
  zoomMeetingId : String
  uuid : String
  topic : String
  startTime : Int
  endTime : Option Int
  duration : Option Nat
  recordingUrl : Option String
  recordingPassword : Option String
  transcript : Option String
  transcriptText : Option String
  speakers : Option String
  summary : Option String
  bulletPoints : Option String
  aiNotes : Option String
deriving Repr, DecidableEq

/-- A `Recording` row.  `id` is modelled as a surrogate counter (the source
uses Prisma-generated cuids).  `downloadUrl`/`playUrl` are nullable TEXT. -/
structure RecordingRow where
  id : Nat
  meetingId : String
  fileType : String
  fileSize : Nat
  fileUrl : String
  downloadUrl : Option String
  playUrl : Option String
  recordingType : String
  recordingStart : Option String
  recordingEnd : Option String
deriving Repr, DecidableEq

/-- A `Task` row (action item) as created by the analyze route. -/
structure TaskRow where
  description : String
  owner : Option String
  deadline : Option String
  priority : String
  status : String
  meetingId : String
deriving Repr, DecidableEq

/-- The database state threaded through the operations. -/
structure Db where
  meetings : List MeetingRow
  recordings : List RecordingRow
  tasks : List TaskRow
  nextRecordingId : Nat
deriving Repr, DecidableEq

/-- `prisma.meeting.findFirst({ where: { id, userId } })`. -/
def findMeeting (db : Db) (meetingId userId : String) : Option MeetingRow :=
  db.meetings.find? (fun m => m.id == meetingId && m.userId == userId)

/-- `prisma.meeting.update({ where: { id }, data: { recordingUrl } })`. -/
def updateMeetingRecordingUrl (db : Db) (meetingId url : String) : Db :=
  { db with
    meetings := db.meetings.map (fun m =>
      if m.id == meetingId then { m with recordingUrl := some url } else m) }

/-! ## Storage service (`StorageService`, `src/unnamed/part_003`) -/

/-- `RecordingMetadata` as passed to the storage service. -/
structure RecordingMetadata where
  meetingId : String
  fileType : String
  fileSize : Nat
  recordingType : String
  downloadUrl : Option String
  playUrl : Option String
  recordingStart : Option String
  recordingEnd : Option String
deriving Repr, DecidableEq

/-- `StorageService.getFileExtension`: map the file type (upper-cased) to an
extension; anything unrecognised maps to `bin`. -/
def getFileExtension (fileType : String) : String :=
  let t := toUpperCase fileType
  if t == "MP4" then "mp4"
  else if t == "M4A" then "m4a"
  else if t == "CHAT" then "txt"
  else if t == "TRANSCRIPT" then "vtt"
  else if t == "CC" then "vtt"
  else if t == "CSV" then "csv"
  else "bin"

/-- `StorageService.generateFileName`: the 8-character prefix of the MD5 hex
digest of the string `` `${meetingId}-${timestamp}` `` (the digest function
`md5hex` and the value of `Date.now()` are explicit parameters; the file
content takes no part in the name). -/
def generateFileName (md5hex : String → String) (now : Nat)
    (meetingId fileType : String) : String :=
  let hash := (md5hex (meetingId ++ "-" ++ toString now)).take 8
  "recording-" ++ meetingId ++ "-" ++ hash ++ "." ++ getFileExtension fileType

/-- One entry of Zoom's `recording_files` array (the fields the routes use). -/
structure RecordingFile where
  file_type : String
  download_url : String
  play_url : String
  file_size : Nat
  recording_type : String
  recording_start : String
  recording_end : String
deriving Repr, DecidableEq

/-- Zoom's recordings payload (`ZoomMeeting` with `recording_files`):
`recording_files` may be absent (`!zoomRecording.recording_files`). -/
structure ZoomRecordingData where
  recording_files : Option (List RecordingFile)
  share_url : Option String
deriving Repr, DecidableEq

/-- Environment of externals for the import pipeline:
* `getRecordings` — `ZoomService.getMeetingRecordings` for this user
  (argument: the meeting's `zoomMeetingId`); throws `HTTPException`;
* `download` — `ZoomService.downloadRecordingFile` (argument: the file's
  `download_url`); error carries `error.message`;
* `write` — `fs.writeFile` (path, bytes);
* `md5hex` — `crypto.createHash('md5')...digest('hex')`;
* `now` — `Date.now()` during the request. -/
structure ImportEnv where
  getRecordings : String → Except HttpError ZoomRecordingData
  download : String → Except String Bytes
  write : String → Bytes → Except String Unit
  md5hex : String → String
  now : Nat

/-- `StorageService.storeRecordingLocally`: generate the file name, write the
buffer; any write failure is rethrown as `Error('Failed to store recording
file')`.  Returns `(filePath, fileUrl)`. -/
def storeRecordingLocally (env : ImportEnv) (buffer : Bytes)
    (metadata : RecordingMetadata) : Except String (String × String) :=
  let fileName := generateFileName env.md5hex env.now metadata.meetingId metadata.fileType
  let filePath := "uploads/recordings/" ++ fileName
  match env.write filePath buffer with
  | .error _ => .error "Failed to store recording file"
  | .ok _ => .ok (filePath, "/api/recordings/" ++ fileName)

/-- `StorageService.storeRecordingMetadata`: `prisma.recording.create` with
`downloadUrl: metadata.downloadUrl || null` and `playUrl: metadata.playUrl ||
null` (the empty string is stored as NULL).  Returns the created row and the
new database state. -/
def storeRecordingMetadata (db : Db) (meetingId fileUrl : String)
    (metadata : RecordingMetadata) : RecordingRow × Db :=
  let row : RecordingRow :=
    { id := db.nextRecordingId
      meetingId := meetingId
      fileType := metadata.fileType
      fileSize := metadata.fileSize
      fileUrl := fileUrl
      downloadUrl := match metadata.downloadUrl with
        | none => none
        | some s => orNullStr s
      playUrl := match metadata.playUrl with
        | none => none
        | some s => orNullStr s
      recordingType := metadata.recordingType
      recordingStart := metadata.recordingStart
      recordingEnd := metadata.recordingEnd }
  (row, { db with recordings := db.recordings ++ [row],
                  nextRecordingId := db.nextRecordingId + 1 })

/-! ## Single-meeting recording import
(`POST /meetings/:id/import-recording`, `src/unnamed/part_008` lines 887–1016) -/

/-- One element of the route's `importedRecordings` response array. -/
structure ImportedEntry where
  id : Nat
  fileType : String
  fileSize : Nat
  fileUrl : String
  recordingType : String
deriving Repr, DecidableEq

/-- One element of the route's `errors` response array. -/
structure FileError where
  fileType : String
  error : String
deriving Repr, DecidableEq

/-- The aggregate result the route returns. -/
structure ImportResult where
  imported : List ImportedEntry
  errors : List FileError
  totalSize : Nat
deriving Repr, DecidableEq

/-- The `RecordingMetadata` the import routes build for a file. -/
def metadataOf (meetingId : String) (f : RecordingFile) : RecordingMetadata :=
  { meetingId := meetingId
    fileType := f.file_type
    fileSize := f.file_size
    recordingType := f.recording_type
    downloadUrl := some f.download_url
    playUrl := some f.play_url
    recordingStart := some f.recording_start
    recordingEnd := some f.recording_end }

/-- The body of the per-file loop of the single-meeting import route.
`meeting` and `snapshot` are the `prisma.meeting.findFirst({ include:
{ recordings: true } })` result loaded once before the loop: both the
duplicate check and the `!meeting.recordingUrl` guard read that snapshot,
not the live database. -/
def fileStep (env : ImportEnv) (meeting : MeetingRow)
    (snapshot : List RecordingRow) (recordingTypes : List String)
    (db : Db) (f : RecordingFile) :
    Db × Option ImportedEntry × Option FileError :=
  if ¬ recordingTypes.contains f.file_type then (db, none, none)
  else if (snapshot.find? (fun r => r.downloadUrl == some f.download_url)).isSome then
    (db, none, none)
  else
    match env.download f.download_url with
    | .error msg => (db, none, some ⟨f.file_type, msg⟩)
    | .ok buffer =>
      match storeRecordingLocally env buffer (metadataOf meeting.id f) with
      | .error msg => (db, none, some ⟨f.file_type, msg⟩)
      | .ok (_, fileUrl) =>
        let (row, db1) := storeRecordingMetadata db meeting.id fileUrl (metadataOf meeting.id f)
        let entry : ImportedEntry :=
          { id := row.id
            fileType := f.file_type
            fileSize := f.file_size
            fileUrl := fileUrl
            recordingType := f.recording_type }
        let db2 :=
          if f.file_type == "MP4" && jsFalsy meeting.recordingUrl then
            updateMeetingRecordingUrl db1 meeting.id fileUrl
          else db1
        (db2, some entry, none)

/-- The per-file loop of the single-meeting import route, threading the
database and collecting `importedRecordings` and `errors` in order. -/
def processFiles (env : ImportEnv) (meeting : MeetingRow)
    (snapshot : List RecordingRow) (recordingTypes : List String) :
    Db → List RecordingFile → Db × List ImportedEntry × List FileError
  | db, [] => (db, [], [])
  | db, f :: fs =>
    let (db1, entry?, err?) := fileStep env meeting snapshot recordingTypes db f
    let (db2, entries, errs) := processFiles env meeting snapshot recordingTypes db1 fs
    (db2, entry?.toList ++ entries, err?.toList ++ errs)

/-- `POST /meetings/:id/import-recording`: resolve the meeting (404), require
a Zoom meeting id (400), fetch the recording list (errors propagate), require
a non-empty `recording_files` (404), then run the per-file loop and return
the aggregate (`totalSize` sums the imported files' sizes). -/
def importRecording (env : ImportEnv) (db : Db) (userId meetingId : String)
    (recordingTypes : List String) : Except HttpError (ImportResult × Db) :=
  match findMeeting db meetingId userId with
  | none => .error ⟨404, "Meeting not found"⟩
  | some meeting =>
    if meeting.zoomMeetingId.isEmpty then
      .error ⟨400, "No Zoom meeting ID available"⟩
    else
      match env.getRecordings meeting.zoomMeetingId with
      | .error e => .error e
      | .ok zr =>
        match zr.recording_files with
        | none => .error ⟨404, "No recordings available for this meeting"⟩
        | some files =>
          if files.isEmpty then
            .error ⟨404, "No recordings available for this meeting"⟩
          else
            let snapshot := db.recordings.filter (fun r => r.meetingId == meeting.id)
            let (db', imported, errors) :=
              processFiles env meeting snapshot recordingTypes db files
            .ok ({ imported := imported
                   errors := errors
                   totalSize := (imported.map (fun e => e.fileSize)).sum }, db')

/-- Pure classification of what the per-file loop does with one file
(independent of the database being threaded): skipped because the type was
not requested, skipped as a duplicate, failed with an error message,
or imported with the given storage URL. -/
inductive FileOutcome where
  | skippedType
  | skippedDup
  | failed (msg : String)
  | success (fileUrl : String)
deriving Repr, DecidableEq

/-- The outcome of `fileStep` for a file, computed without the database. -/
def fileOutcome (env : ImportEnv) (meeting : MeetingRow)
    (snapshot : List RecordingRow) (recordingTypes : List String)
    (f : RecordingFile) : FileOutcome :=
  if ¬ recordingTypes.contains f.file_type then .skippedType
  else if (snapshot.find? (fun r => r.downloadUrl == some f.download_url)).isSome then
    .skippedDup
  else
    match env.download f.download_url with
    | .error msg => .failed msg
    | .ok buffer =>
      match storeRecordingLocally env buffer (metadataOf meeting.id f) with
      | .error msg => .failed msg
      | .ok (_, fileUrl) => .success fileUrl

/-- The error entry the loop records for a file, as determined by its
outcome: failing files contribute `(file_type, message)`, all others
nothing. -/
def errorOf (env : ImportEnv) (meeting : MeetingRow)
    (snapshot : List RecordingRow) (recordingTypes : List String)
    (f : RecordingFile) : Option FileError :=
  match fileOutcome env meeting snapshot recordingTypes f with
  | .failed msg => some ⟨f.file_type, msg⟩
  | _ => none

/-- The id-free shape `(fileType, fileSize, fileUrl, recordingType)` of
the imported entry the loop records for a file, as determined by its outcome:
successfully imported files contribute their entry, all others nothing. -/
def importedShapeOf (env : ImportEnv) (meeting : MeetingRow)
    (snapshot : List RecordingRow) (recordingTypes : List String)
    (f : RecordingFile) : Option (String × Nat × String × String) :=
  match fileOutcome env meeting snapshot recordingTypes f with
  | .success url => some (f.file_type, f.file_size, url, f.recording_type)
  | _ => none

/-- Forget the surrogate database id of an imported entry. -/
def entryShape (e : ImportedEntry) : String × Nat × String × String :=
  (e.fileType, e.fileSize, e.fileUrl, e.recordingType)

/-- Whether an outcome is a successful import. -/
def FileOutcome.isSuccess : FileOutcome → Bool
  | .success _ => true
  | _ => false

/-- The `Recording` row inserted for a successfully imported file. -/
def insertedRow (db : Db) (meetingId url : String) (f : RecordingFile) :
    RecordingRow :=
  (storeRecordingMetadata db meetingId url (metadataOf meetingId f)).1

/-- The cumulative effect of the loop on the `Meeting` table: either nothing,
or the meeting's `recordingUrl` set to the last imported MP4's storage URL. -/
def applyRu (meetingId : String) (ru : Option String) (m : MeetingRow) :
    MeetingRow :=
  match ru with
  | none => m
  | some u => if m.id == meetingId then { m with recordingUrl := some u } else m

/-! ## Batch recording import
(`POST /meetings/batch-import-recordings`, `src/unnamed/part_008`
lines 1112–1309) -/

/-- One element of the batch route's `results.successful` array. -/
structure BatchSuccess where
  meetingId : String
  topic : String
  importedFiles : List String
  size : Nat
deriving Repr, DecidableEq

/-- One element of the batch route's `results.failed` array. -/
structure BatchFailure where
  meetingId : String
  topic : String
  error : String
deriving Repr, DecidableEq

/-- The body of the batch route's per-file loop.  Differences from the
single-meeting route's `fileStep`: the duplicate check is a live
`prisma.recording.findFirst({ where: { meetingId, downloadUrl } })` query
(not a preloaded snapshot), a per-file failure is only logged — nothing is
recorded in the response — and an imported MP4 updates the meeting's
`recordingUrl` unconditionally (there is no `!meeting.recordingUrl` guard).
Returns the new database, the `importedFiles` entry (the file type) if the
file was imported, and the size added to `meetingSize`. -/
def batchFileStep (env : ImportEnv) (meeting : MeetingRow)
    (recordingTypes : List String) (db : Db) (f : RecordingFile) :
    Db × Option String × Nat :=
  if ¬ recordingTypes.contains f.file_type then (db, none, 0)
  else if (db.recordings.find? (fun r =>
      r.meetingId == meeting.id && r.downloadUrl == some f.download_url)).isSome then
    (db, none, 0)
  else
    match env.download f.download_url with
    | .error _ => (db, none, 0)
    | .ok buffer =>
      match storeRecordingLocally env buffer (metadataOf meeting.id f) with
      | .error _ => (db, none, 0)
      | .ok (_, fileUrl) =>
        let (_, db1) := storeRecordingMetadata db meeting.id fileUrl (metadataOf meeting.id f)
        let db2 :=
          if f.file_type == "MP4" then
            updateMeetingRecordingUrl db1 meeting.id fileUrl
          else db1
        (db2, some f.file_type, f.file_size)

/-- The batch route's per-file loop over one meeting's recording list. -/
def batchProcessFiles (env : ImportEnv) (meeting : MeetingRow)
    (recordingTypes : List String) :
    Db → List RecordingFile → Db × List String × Nat
  | db, [] => (db, [], 0)
  | db, f :: fs =>
    let (db1, imp?, sz) := batchFileStep env meeting recordingTypes db f
    let (db2, imps, szs) := batchProcessFiles env meeting recordingTypes db1 fs
    (db2, imp?.toList ++ imps, sz + szs)

/-- The batch route's handling of one meeting: a missing Zoom meeting id, a
failed or empty recording fetch, and an all-files-skipped-or-failed run each
produce a `failed` entry; otherwise a `successful` entry aggregates
the imported file types and their total size. -/
def batchMeetingStep (env : ImportEnv) (recordingTypes : List String)
    (db : Db) (m : MeetingRow) : Db × (BatchSuccess ⊕ BatchFailure) :=
  if m.zoomMeetingId.isEmpty then
    (db, .inr ⟨m.id, m.topic, "No Zoom meeting ID"⟩)
  else
    match env.getRecordings m.zoomMeetingId with
    | .error e => (db, .inr ⟨m.id, m.topic, e.message⟩)
    | .ok zr =>
      match zr.recording_files with
      | none => (db, .inr ⟨m.id, m.topic, "No recordings available"⟩)
      | some files =>
        if files.isEmpty then
          (db, .inr ⟨m.id, m.topic, "No recordings available"⟩)
        else
          let (db1, importedFiles, meetingSize) :=
            batchProcessFiles env m recordingTypes db files
          if importedFiles.isEmpty then
            (db1, .inr ⟨m.id, m.topic, "No files imported"⟩)
          else
            (db1, .inl ⟨m.id, m.topic, importedFiles, meetingSize⟩)

/-- The batch route's loop over the selected meetings, accumulating the
`successful` and `failed` arrays in order. -/
def batchProcessMeetings (env : ImportEnv) (recordingTypes : List String) :
    Db → List MeetingRow → Db × List BatchSuccess × List BatchFailure
  | db, [] => (db, [], [])
  | db, m :: ms =>
    let (db1, r) := batchMeetingStep env recordingTypes db m
    let (db2, succ, fail) := batchProcessMeetings env recordingTypes db1 ms
    match r with
    | .inl s => (db2, s :: succ, fail)
    | .inr f => (db2, succ, f :: fail)

/-- The batch route's aggregate response
(`totalImported` adds `importedFiles.length`, `totalSize` adds `size`,
per successful meeting). -/
structure BatchResults where
  successful : List BatchSuccess
  failed : List BatchFailure
  totalImported : Nat
  totalSize : Nat
deriving Repr, DecidableEq

/-- `POST /meetings/batch-import-recordings` with an explicit `meetingIds`
selection: select the caller's meetings among `meetingIds`, 404 when none,
then process each in turn. -/
def batchImportRecordings (env : ImportEnv) (db : Db) (userId : String)
    (meetingIds : List String) (recordingTypes : List String) :
    Except HttpError (BatchResults × Db) :=
  let meetings := db.meetings.filter (fun m =>
    meetingIds.contains m.id && m.userId == userId)
  if meetings.isEmpty then .error ⟨404, "No meetings found for import"⟩
  else
    let (db', succ, fail) := batchProcessMeetings env recordingTypes db meetings
    .ok ({ successful := succ
           failed := fail
           totalImported := (succ.map (fun s => s.importedFiles.length)).sum
           totalSize := (succ.map (fun s => s.size)).sum }, db')

/-- The outcome of `batchFileStep` for a file, computed against a database
state (the live duplicate check makes it state-dependent, unlike
`fileOutcome`). -/
def batchFileOutcome (env : ImportEnv) (meeting : MeetingRow)
    (recordingTypes : List String) (db : Db) (f : RecordingFile) : FileOutcome :=
  if ¬ recordingTypes.contains f.file_type then .skippedType
  else if (db.recordings.find? (fun r =>
      r.meetingId == meeting.id && r.downloadUrl == some f.download_url)).isSome then
    .skippedDup
  else
    match env.download f.download_url with
    | .error msg => .failed msg
    | .ok buffer =>
      match storeRecordingLocally env buffer (metadataOf meeting.id f) with
      | .error msg => .failed msg
      | .ok (_, fileUrl) => .success fileUrl

/-! ## Meeting sync (`ZoomService.syncMeetings`,
`src/backend/src/services/export.service.ts` lines 877–954) -/

/-- JavaScript truthiness of an optional number: `null`/`undefined` and `0`
are falsy (`zoomMeeting.duration ? ... : null`). -/
def jsFalsyNat : Option Nat → Bool
  | none => true
  | some n => n == 0

/-- `o || null` for an optional string field. -/
def jsOrNull (o : Option String) : Option String :=
  match o with
  | none => none
  | some s => orNullStr s

/-- One meeting from Zoom's paginated list (`result.meetings`);
`id` is numeric in the provider payload and stored as `id.toString()`. -/
structure ZoomMeetingInfo where
  id : Nat
  uuid : String
  topic : String
  start_time : Int
  duration : Option Nat
deriving Repr, DecidableEq

/-- A Zoom transcript payload (`ZoomTranscript`): `raw` stands for its JSON
serialisation (`JSON.stringify(transcriptData)`); `speakers` likewise carries
the serialised speakers array when present. -/
structure ZoomTranscript where
  raw : String
  transcript_text : Option String
  speakers : Option String
deriving Repr, DecidableEq

/-- Environment for `syncMeetings`:
* `pages` — the successive results of the paginated
  `getMeetings` calls (the loop runs until `next_page_token` is empty,
  modelled by the end of the list; a failed page fetch is an `.error`);
* `getRecordings` / `getTranscript` — the per-meeting metadata calls, each
  wrapped in `try { ... } catch { null }` by the source. -/
structure SyncEnv where
  pages : List (Except String (List ZoomMeetingInfo))
  getRecordings : String → Except String ZoomRecordingData
  getTranscript : String → Except String (Option ZoomTranscript)

/-- `prisma.meeting.create` under the unique index
`Meeting_zoomMeetingId_key` (`migration.sql` line 87): an insert whose
`zoomMeetingId` already exists fails and changes nothing — this is the
database-side guarantee that a racing duplicate insert cannot silently
duplicate a meeting. -/
def meetingCreate (db : Db) (row : MeetingRow) : Except String Db :=
  if db.meetings.any (fun m => m.zoomMeetingId == row.zoomMeetingId) then
    .error "Unique constraint failed on the fields: (`zoomMeetingId`)"
  else
    .ok { db with meetings := db.meetings ++ [row] }

/-- The `Meeting` row `syncMeetings` creates for one Zoom meeting
(`id` is a Prisma-generated cuid, modelled by a counter). -/
def mkSyncedMeeting (db : Db) (userId : String) (zm : ZoomMeetingInfo)
    (recordingData : Option ZoomRecordingData)
    (transcriptData : Option ZoomTranscript) : MeetingRow :=
  { id := "meeting-" ++ toString db.meetings.length
    userId := userId
    zoomMeetingId := toString zm.id
    uuid := zm.uuid
    topic := zm.topic
    startTime := zm.start_time
    endTime := if jsFalsyNat zm.duration then none
      else some (zm.start_time + (zm.duration.getD 0 : Nat) * 60000)
    duration := zm.duration
    recordingUrl := jsOrNull ((recordingData.bind (fun r => r.recording_files)).bind
      (fun fs => fs.head?) |>.map (fun f => f.play_url))
    recordingPassword := if jsFalsy (recordingData.bind (fun r => r.share_url)) then none
      else some "protected"
    transcript := transcriptData.map (fun t => t.raw)
    transcriptText := jsOrNull (transcriptData.bind (fun t => t.transcript_text))
    speakers := transcriptData.bind (fun t => t.speakers)
    summary := none
    bulletPoints := none
    aiNotes := none }

/-- `syncMeetings`' handling of one Zoom meeting: look the meeting up by
`zoomMeetingId` alone (`prisma.meeting.findUnique({ where:
{ zoomMeetingId } })` — the owning user is not part of the lookup); when a
row exists, skip silently; otherwise fetch recordings and transcript (each
failure degraded to `null`) and create the row; a create failure is caught
and recorded as `Failed to sync meeting <id>: <message>`. -/
def syncOne (env : SyncEnv) (userId : String) (db : Db) (zm : ZoomMeetingInfo) :
    Db × Nat × List String :=
  if (db.meetings.find? (fun m => m.zoomMeetingId == toString zm.id)).isSome then
    (db, 0, [])
  else
    let recordingData := (env.getRecordings (toString zm.id)).toOption
    let transcriptData := ((env.getTranscript (toString zm.id)).toOption).join
    match meetingCreate db (mkSyncedMeeting db userId zm recordingData transcriptData) with
    | .ok db' => (db', 1, [])
    | .error msg => (db, 0, ["Failed to sync meeting " ++ toString zm.id ++ ": " ++ msg])

/-- The per-page loop over `result.meetings`. -/
def syncPage (env : SyncEnv) (userId : String) :
    Db → List ZoomMeetingInfo → Db × Nat × List String
  | db, [] => (db, 0, [])
  | db, zm :: zms =>
    let (db1, n1, e1) := syncOne env userId db zm
    let (db2, n2, e2) := syncPage env userId db1 zms
    (db2, n1 + n2, e1 ++ e2)

/-- The pagination loop of `syncMeetings`: a page-fetch failure records
`Failed to fetch meetings page: <message>` and breaks out of the loop. -/
def syncPages (env : SyncEnv) (userId : String) :
    Db → List (Except String (List ZoomMeetingInfo)) → Db × Nat × List String
  | db, [] => (db, 0, [])
  | db, page :: rest =>
    match page with
    | .error msg => (db, 0, ["Failed to fetch meetings page: " ++ msg])
    | .ok zms =>
      let (db1, n1, e1) := syncPage env userId db zms
      let (db2, n2, e2) := syncPages env userId db1 rest
      (db2, n1 + n2, e1 ++ e2)

/-- `ZoomService.syncMeetings`: run the pagination loop and return
`{ synced, errors }` with the final database. -/
def syncMeetings (env : SyncEnv) (userId : String) (db : Db) :
    (Nat × List String) × Db :=
  let (db', n, e) := syncPages env userId db env.pages
  ((n, e), db')

/-- Uniqueness of `zoomMeetingId` across the `Meeting` table — the invariant
the unique index maintains. -/
def UniqueZoomIds (db : Db) : Prop :=
  db.meetings.Pairwise (fun a b => a.zoomMeetingId ≠ b.zoomMeetingId)

/-! ## Meeting analysis (`POST /meetings/:id/analyze`,
`src/unnamed/part_008` lines 177–233) -/

/-- One action item in the LLM's structured result. -/
structure ActionItemOut where
  task : String
  owner : Option String
  deadline : Option String
  priority : String
deriving Repr, DecidableEq

/-- The `summary` part of the LLM's structured result. -/
structure AnalysisSummary where
  summary : String
  keyPoints : List String
  sentiment : String
  topics : List String
  actionItems : List ActionItemOut
deriving Repr, DecidableEq

/-- The LLM's structured result (`OpenAIService.analyzeTranscript`); the
non-summary parts are carried as their serialised JSON text. -/
structure Analysis where
  summary : AnalysisSummary
  speakerInsights : String
  meetingEffectiveness : String
  recommendations : String
deriving Repr, DecidableEq

/-- `JSON.stringify` of a string array (escaping elided — no claim depends
on the exact encoding). -/
def jsonArray (xs : List String) : String :=
  "[" ++ String.intercalate "," (xs.map (fun s => "\x22" ++ s ++ "\x22")) ++ "]"

/-- `JSON.stringify` of the `aiNotes` object the analyze route persists
(`sentiment`, `topics`, `effectiveness`, `recommendations`,
`speakerInsights`). -/
def stringifyAiNotes (a : Analysis) : String :=
  "\x7b\x22sentiment\x22:\x22" ++ a.summary.sentiment ++
  "\x22,\x22topics\x22:" ++ jsonArray a.summary.topics ++
  ",\x22effectiveness\x22:" ++ a.meetingEffectiveness ++
  ",\x22recommendations\x22:" ++ a.recommendations ++
  ",\x22speakerInsights\x22:" ++ a.speakerInsights ++ "\x7d"

/-- The LLM collaborator: `analyzeTranscript(transcriptText, topic,
speakers?, duration?)`. -/
structure AnalyzeEnv where
  analyzeTranscript : String → String → Option String → Option Nat →
    Except HttpError Analysis

/-- `POST /meetings/:id/analyze`: resolve the meeting by `(id, userId)`
(404), require a truthy `transcriptText` (`!meeting.transcriptText` — null or
empty fails with 400 before the LLM is called), invoke the LLM, persist
`summary`/`bulletPoints`/`aiNotes` on the meeting, then bulk-create one Task
per action item (`priority` upper-cased, `owner`/`deadline` defaulted with
`|| null`-style truthiness, status `PENDING`).  Returns the analysis and the
new database; on error the database is unchanged. -/
def analyzeMeeting (env : AnalyzeEnv) (db : Db) (userId meetingId : String) :
    (Except HttpError Analysis) × Db :=
  match findMeeting db meetingId userId with
  | none => (.error ⟨404, "Meeting not found"⟩, db)
  | some meeting =>
    if jsFalsy meeting.transcriptText then
      (.error ⟨400, "No transcript available for analysis"⟩, db)
    else
      match env.analyzeTranscript (meeting.transcriptText.getD "") meeting.topic
          meeting.speakers (if jsFalsyNat meeting.duration then none else meeting.duration) with
      | .error e => (.error e, db)
      | .ok analysis =>
        let db1 : Db :=
          { db with meetings := db.meetings.map (fun m =>
              if m.id == meetingId then
                { m with summary := some analysis.summary.summary
                         bulletPoints := some (jsonArray analysis.summary.keyPoints)
                         aiNotes := some (stringifyAiNotes analysis) }
              else m) }
        let newTasks : List TaskRow :=
          analysis.summary.actionItems.map (fun item =>
            { description := item.task
              owner := jsOrNull item.owner
              deadline := jsOrNull item.deadline
              priority := toUpperCase item.priority
              status := "PENDING"
              meetingId := meetingId })
        let db2 : Db :=
          if analysis.summary.actionItems.isEmpty then db1
          else { db1 with tasks := db1.tasks ++ newTasks }
        (.ok analysis, db2)

/-! ## Export service (`ExportService`,
`src/backend/src/services/export.service.ts` lines 64–470) -/

/-- `ExportOptions`. -/
structure ExportOptions where
  includeSummary : Bool
  includeTranscript : Bool
  includeActionItems : Bool
  includeSpeakerInsights : Bool
deriving Repr, DecidableEq

/-- One parsed speaker-insight entry (`talkTime` rendering is abstracted to
its decimal text, which is all the renderers use). -/
structure SpeakerInsight where
  name : String
  talkTime : String
  keyContributions : List String
deriving Repr, DecidableEq

/-- One action item of `MeetingExportData`. -/
structure ExportActionItem where
  task : String
  owner : Option String
  deadline : Option String
  priority : String
deriving Repr, DecidableEq

/-- `MeetingExportData`: the format-agnostic intermediate representation
`getMeetingExportData` assembles. -/
structure MeetingExportData where
  meetingId : String
  topic : String
  startTime : Int
  duration : Option Nat
  summary : Option String
  transcript : Option String
  actionItems : Option (List ExportActionItem)
  speakerInsights : Option (List SpeakerInsight)
deriving Repr, DecidableEq

/-- Locale/date rendering used by the exporters and the notification
service (`toLocaleDateString`, `toLocaleTimeString`, `toISOString`),
abstracted as parameters. -/
structure RenderEnv where
  localeDate : Int → String
  localeTime : Int → String
  isoNow : String
deriving Inhabited

/-- `${meeting.duration || 'Unknown'}` (0 is falsy). -/
def durationText (d : Option Nat) : String :=
  match d with
  | none => "Unknown"
  | some n => if n == 0 then "Unknown" else toString n

/-- `ExportService.exportAsMarkdown`: the markdown text it writes.  The
transcript section is emitted only under `options.includeTranscript &&
data.transcript`. -/
def exportAsMarkdown (env : RenderEnv) (data : MeetingExportData)
    (options : ExportOptions) : String :=
  let md := "# " ++ data.topic ++ "\n\n"
  let md := md ++ "## Meeting Information\n\n"
    ++ "- **Date:** " ++ env.localeDate data.startTime ++ "\n"
    ++ "- **Time:** " ++ env.localeTime data.startTime ++ "\n"
    ++ "- **Duration:** " ++ durationText data.duration ++ " minutes\n\n"
  let md := match options.includeSummary, data.summary with
    | true, some s => md ++ "## Summary\n\n" ++ s ++ "\n\n"
    | _, _ => md
  let md := match options.includeActionItems, data.actionItems with
    | true, some items => md ++ "## Action Items\n\n" ++
        String.join ((items.enum).map (fun (p : Nat × ExportActionItem) =>
          "### " ++ toString (p.1 + 1) ++ ". " ++ p.2.task ++ "\n\n"
          ++ "- **Owner:** " ++ (p.2.owner.getD "Unassigned") ++ "\n"
          ++ "- **Priority:** " ++ p.2.priority ++ "\n"
          ++ "- **Deadline:** " ++ (p.2.deadline.getD "No deadline") ++ "\n\n"))
    | _, _ => md
  let md := match options.includeSpeakerInsights, data.speakerInsights with
    | true, some sps => md ++ "## Speaker Insights\n\n" ++
        String.join (sps.map (fun sp =>
          "### " ++ sp.name ++ " (" ++ sp.talkTime ++ "% talk time)\n\n"
          ++ (if sp.keyContributions.isEmpty then ""
              else "**Key Contributions:**\n"
                ++ String.join (sp.keyContributions.map (fun c => "- " ++ c ++ "\n"))
                ++ "\n")))
    | _, _ => md
  match options.includeTranscript, data.transcript with
  | true, some t => md ++ "## Full Transcript\n\n" ++ "```\n" ++ t ++ "\n```\n"
  | _, _ => md

/-- The JSON export's payload (`exportAsJSON` builds `exportData` and
serialises it): optional fields are present only when both the option is set
and the data exists. -/
structure JsonExport where
  meetingId : String
  topic : String
  startTime : Int
  duration : Option Nat
  summary : Option String
  actionItems : Option (List ExportActionItem)
  speakerInsights : Option (List SpeakerInsight)
  transcript : Option String
  exportedAt : String
deriving Repr, DecidableEq

/-- `ExportService.exportAsJSON`: the object it serialises. -/
def exportAsJSON (env : RenderEnv) (data : MeetingExportData)
    (options : ExportOptions) : JsonExport :=
  { meetingId := data.meetingId
    topic := data.topic
    startTime := data.startTime
    duration := data.duration
    summary := match options.includeSummary, data.summary with
      | true, some s => some s
      | _, _ => none
    actionItems := match options.includeActionItems, data.actionItems with
      | true, some items => some items
      | _, _ => none
    speakerInsights := match options.includeSpeakerInsights, data.speakerInsights with
      | true, some sps => some sps
      | _, _ => none
    transcript := match options.includeTranscript, data.transcript with
      | true, some t => some t
      | _, _ => none
    exportedAt := env.isoNow }

/-- `ExportService.exportAsPDF`: the sequence of text blocks written to the
PDF document (`doc.text` calls in order; fonts, sizes and page breaks are
presentation only). -/
def exportAsPDF (env : RenderEnv) (data : MeetingExportData)
    (options : ExportOptions) : List String :=
  [data.topic, "Meeting Information",
   "Date: " ++ env.localeDate data.startTime,
   "Time: " ++ env.localeTime data.startTime,
   "Duration: " ++ durationText data.duration ++ " minutes"]
  ++ (match options.includeSummary, data.summary with
    | true, some s => ["Summary", s]
    | _, _ => [])
  ++ (match options.includeActionItems, data.actionItems with
    | true, some items => "Action Items" ::
        (items.enum).flatMap (fun (p : Nat × ExportActionItem) =>
          [toString (p.1 + 1) ++ ". " ++ p.2.task,
           "   Owner: " ++ (p.2.owner.getD "Unassigned"),
           "   Priority: " ++ p.2.priority,
           "   Deadline: " ++ (p.2.deadline.getD "No deadline")])
    | _, _ => [])
  ++ (match options.includeSpeakerInsights, data.speakerInsights with
    | true, some sps => "Speaker Insights" ::
        sps.flatMap (fun sp =>
          (sp.name ++ " (" ++ sp.talkTime ++ "% talk time)") ::
          (if sp.keyContributions.isEmpty then []
           else "Key Contributions:" :: sp.keyContributions.map (fun c => "• " ++ c)))
    | _, _ => [])
  ++ (match options.includeTranscript, data.transcript with
    | true, some t => ["Full Transcript", t]
    | _, _ => [])

/-- `ExportService.exportAsWord`: the sequence of `TextRun` texts in order
(document styling is presentation only).  Note the Word renderer has no
speaker-insights section in the source. -/
def exportAsWord (env : RenderEnv) (data : MeetingExportData)
    (options : ExportOptions) : List String :=
  [data.topic, "Meeting Information",
   "Date: " ++ env.localeDate data.startTime,
   "Time: " ++ env.localeTime data.startTime,
   "Duration: " ++ durationText data.duration ++ " minutes"]
  ++ (match options.includeSummary, data.summary with
    | true, some s => ["Summary", s]
    | _, _ => [])
  ++ (match options.includeActionItems, data.actionItems with
    | true, some items => "Action Items" ::
        (items.enum).flatMap (fun (p : Nat × ExportActionItem) =>
          [toString (p.1 + 1) ++ ". " ++ p.2.task,
           "Owner: " ++ (p.2.owner.getD "Unassigned"),
           "Priority: " ++ p.2.priority,
           "Deadline: " ++ (p.2.deadline.getD "No deadline")])
    | _, _ => [])
  ++ (match options.includeTranscript, data.transcript with
    | true, some t => ["Full Transcript", t]
    | _, _ => [])

/-! ## Notification service
(`NotificationService.sendMeetingSummaryNotification`,
`src/backend/src/services/notification.service.ts` lines 103–213) -/

/-- `NotificationService.getPriorityEmoji`. -/
def getPriorityEmoji (priority : String) : String :=
  if priority == "URGENT" then "🔴"
  else if priority == "HIGH" then "🟠"
  else if priority == "MEDIUM" then "🟡"
  else if priority == "LOW" then "🟢"
  else "⚪"

/-- `NotificationService.getStatusEmoji`. -/
def getStatusEmoji (status : String) : String :=
  if status == "COMPLETED" then "✅"
  else if status == "IN_PROGRESS" then "🔄"
  else if status == "PENDING" then "⏳"
  else if status == "CANCELLED" then "❌"
  else "❓"

/-- `MeetingSummaryNotification` (the service's parameter object). -/
structure SummaryParams where
  meetingId : String
  recipients : List String
  includeActionItems : Bool
  slackChannel : Option String
deriving Repr, DecidableEq

/-- The outbound channels the service can attempt. -/
inductive Channel where
  | email
  | slack
deriving Repr, DecidableEq

/-- The external senders: `transporter.sendMail` (recipients, subject, html)
and `slackClient.chat.postMessage` (channel, text → message ts). -/
structure NotifyEnv where
  sendMail : List String → String → String → Except String Unit
  postMessage : String → String → Except String String

/-- The email HTML body the service assembles (template whitespace elided;
the structure and order of the pieces follow the source). -/
def summaryEmailHtml (env : RenderEnv) (meeting : MeetingRow)
    (includeActionItems : Bool) (tasks : List TaskRow) : String :=
  let html := "<h2>Meeting Summary: " ++ meeting.topic ++ "</h2>"
    ++ "<p><strong>Date:</strong> " ++ env.localeDate meeting.startTime ++ "<br>"
    ++ "<strong>Time:</strong> " ++ env.localeTime meeting.startTime ++ "<br>"
    ++ "<strong>Duration:</strong> " ++ durationText meeting.duration ++ " minutes</p>"
  let html := match meeting.summary with
    | some s => if s.isEmpty then html else
        html ++ "<h3>Summary</h3><p>" ++ s.replace "\n" "<br>" ++ "</p>"
    | none => html
  let html :=
    if includeActionItems && !tasks.isEmpty then
      html ++ "<h3>Action Items</h3><ul>" ++
        String.join (tasks.map (fun task =>
          "<li><strong>" ++ task.description ++ "</strong><br>"
          ++ "Owner: " ++ (task.owner.getD "Unassigned") ++ "<br>"
          ++ "Priority: " ++ task.priority ++ "<br>"
          ++ "Status: " ++ task.status ++ "<br>"
          ++ (match task.deadline with
              | some d => "Deadline: " ++ d
              | none => "") ++ "</li>"))
        ++ "</ul>"
    else html
  html ++ "<br><p><small>Generated by Transmeet - Meeting Intelligence Platform</small></p>"

/-- The Slack message text the service assembles. -/
def summarySlackText (env : RenderEnv) (meeting : MeetingRow)
    (includeActionItems : Bool) (tasks : List TaskRow) : String :=
  let text := "📝 *Meeting Summary*: " ++ meeting.topic
    ++ "\n*Date:* " ++ env.localeDate meeting.startTime
    ++ "\n*Duration:* " ++ durationText meeting.duration ++ " minutes"
  let text := match meeting.summary with
    | some s => if s.isEmpty then text else text ++ "\n\n*Summary:*\n" ++ s
    | none => text
  if includeActionItems && !tasks.isEmpty then
    text ++ "\n\n*Action Items:*" ++
      String.join ((tasks.enum).map (fun (p : Nat × TaskRow) =>
        "\n" ++ toString (p.1 + 1) ++ ". " ++ getStatusEmoji p.2.status ++ " "
        ++ getPriorityEmoji p.2.priority ++ " " ++ p.2.description
        ++ "\n   Owner: " ++ (p.2.owner.getD "Unassigned")
        ++ " | Priority: " ++ p.2.priority
        ++ (match p.2.deadline with
            | some d => " | Deadline: " ++ d
            | none => "")))
  else text

/-- The tasks included in the notification (`include: { tasks: ... }` when
`includeActionItems` is set). -/
def summaryTasks (db : Db) (params : SummaryParams) (meeting : MeetingRow) :
    List TaskRow :=
  if params.includeActionItems then
    db.tasks.filter (fun t => t.meetingId == meeting.id)
  else []

/-- The email subject line. -/
def summarySubject (renv : RenderEnv) (meeting : MeetingRow) : String :=
  "Meeting Summary: " ++ meeting.topic ++ " - " ++ renv.localeDate meeting.startTime

/-- `NotificationService.sendMeetingSummaryNotification`, instrumented with
the list of channels it actually attempts (in order).  The meeting is looked
up by id (404 when absent); the email is sent first when `recipients` is
non-empty, and its failure — rethrown by `sendEmailNotification` as
`HTTPException(500, 'Failed to send email notification: ...')` — propagates
out of the enclosing `try`, so the Slack send is not reached; when the email
step succeeds, a truthy `slackChannel` triggers the Slack send, whose
failure is rethrown as `HTTPException(500, 'Failed to send Slack
notification: ...')`. -/
def sendMeetingSummaryNotification (renv : RenderEnv) (env : NotifyEnv)
    (db : Db) (params : SummaryParams) :
    (Except HttpError Unit) × List Channel :=
  match db.meetings.find? (fun m => m.id == params.meetingId) with
  | none => (.error ⟨404, "Meeting not found"⟩, [])
  | some meeting =>
    let tasks := summaryTasks db params meeting
    let emailHtml := summaryEmailHtml renv meeting params.includeActionItems tasks
    let slackText := summarySlackText renv meeting params.includeActionItems tasks
    let subject := summarySubject renv meeting
    let emailStep : (Except HttpError Unit) × List Channel :=
      if params.recipients.isEmpty then (.ok (), [])
      else
        match env.sendMail params.recipients subject emailHtml with
        | .error msg =>
          (.error ⟨500, "Failed to send email notification: " ++ msg⟩, [.email])
        | .ok _ => (.ok (), [.email])
    match emailStep with
    | (.error e, attempted) => (.error e, attempted)
    | (.ok _, attempted) =>
      if jsFalsy params.slackChannel then (.ok (), attempted)
      else
        match env.postMessage (params.slackChannel.getD "") slackText with
        | .error msg =>
          (.error ⟨500, "Failed to send Slack notification: " ++ msg⟩,
           attempted ++ [.slack])
        | .ok _ => (.ok (), attempted ++ [.slack])

/-! ## Theorems -/

/-- Truthiness of a present string: falsy exactly when empty. -/
theorem jsFalsy_some (s : String) : jsFalsy (some s) = s.isEmpty := rfl

/-- **C1.** `getValidAccessToken` behaves as specified: (i) with no user row
or no stored access token (null or empty — JS truthiness) it fails with
`AuthRequired`; (ii) with an expiry at or before now and no refresh token it
fails with `ReauthRequired`; (iii) with an expiry at or before now and a
stored refresh token it calls the refresh endpoint, persists the returned
access token, refresh token and expiry `now + expires_in·1000`, and returns
the new access token; (iv) otherwise it returns the stored token and leaves
the record unchanged; and (v) provided the provider reports a non-negative
`expires_in`, a returned token's recorded expiry is never in the past
(`now ≤ expiry`). -/
theorem getValidAccessToken_spec (now : Int)
    (refreshEndpoint : String → Option ZoomTokenResponse)
    (user : Option UserTokens)
    (hpos : ∀ rt t, refreshEndpoint rt = some t → 0 ≤ t.expires_in) :
    ((user = none ∨ ∃ u, user = some u ∧ jsFalsy u.accessToken = true) →
      getValidAccessToken now refreshEndpoint user = .error authRequiredErr)
    ∧
    (∀ u exp, user = some u → jsFalsy u.accessToken = false →
      u.tokenExpiresAt = some exp → exp ≤ now → jsFalsy u.refreshToken = true →
      getValidAccessToken now refreshEndpoint user = .error reauthRequiredErr)
    ∧
    (∀ u exp rt t, user = some u → jsFalsy u.accessToken = false →
      u.tokenExpiresAt = some exp → exp ≤ now →
      u.refreshToken = some rt → rt.isEmpty = false →
      refreshEndpoint rt = some t →
      getValidAccessToken now refreshEndpoint user =
        .ok (t.access_token, some
          { accessToken := some t.access_token
            refreshToken := some t.refresh_token
            tokenExpiresAt := some (now + t.expires_in * 1000) }))
    ∧
    (∀ u tok, user = some u → u.accessToken = some tok → tok.isEmpty = false →
      (u.tokenExpiresAt = none ∨ ∃ exp, u.tokenExpiresAt = some exp ∧ now < exp) →
      getValidAccessToken now refreshEndpoint user = .ok (tok, user))
    ∧
    (∀ tok u' urec e,
      getValidAccessToken now refreshEndpoint user = .ok (tok, u') →
      u' = some urec → urec.tokenExpiresAt = some e → now ≤ e) := by
  refine ⟨?_, ?_, ?_, ?_, ?_⟩
  · rintro (rfl | ⟨u, rfl, hf⟩)
    · rfl
    · simp [getValidAccessToken, hf]
  · rintro u exp rfl hf hexp hle hrf
    simp [getValidAccessToken, hf, hexp, hle, hrf]
  · rintro u exp rt t rfl hf hexp hle hrt hne hrefresh
    simp [getValidAccessToken, hf, hexp, hle, hrt, jsFalsy_some, hne, hrefresh]
  · rintro u tok rfl htok hne (hnoexp | ⟨exp, hexp, hlt⟩)
    · simp [getValidAccessToken, jsFalsy, htok, hne, hnoexp]
    · simp [getValidAccessToken, jsFalsy, htok, hne, hexp, not_le.mpr hlt]
  · intro tok u' urec e hres hu' hexp'
    subst hu'
    cases user with
    | none => simp [getValidAccessToken] at hres
    | some u =>
      by_cases hf : jsFalsy u.accessToken = true
      · simp [getValidAccessToken, hf] at hres
      · rw [Bool.not_eq_true] at hf
        cases hte : u.tokenExpiresAt with
        | none =>
          simp [getValidAccessToken, hf, hte] at hres
          rcases hres with ⟨-, h2⟩
          cases h2
          rw [hte] at hexp'
          exact absurd hexp' (by simp)
        | some exp =>
          by_cases hle : exp ≤ now
          · by_cases hrf : jsFalsy u.refreshToken = true
            · simp [getValidAccessToken, hf, hte, hle, hrf] at hres
            · rw [Bool.not_eq_true] at hrf
              cases hrt : u.refreshToken with
              | none => simp [jsFalsy, hrt] at hrf
              | some rt =>
                have hne : rt.isEmpty = false := by simpa [jsFalsy, hrt] using hrf
                cases hre : refreshEndpoint rt with
                | none =>
                  simp [getValidAccessToken, hf, hte, hle, hrt, jsFalsy_some, hne, hre] at hres
                | some t =>
                  simp [getValidAccessToken, hf, hte, hle, hrt, jsFalsy_some, hne, hre] at hres
                  rcases hres with ⟨-, h2⟩
                  rw [← h2] at hexp'
                  simp at hexp'
                  have ht := hpos rt t hre
                  have : (0:Int) ≤ t.expires_in * 1000 := by positivity
                  omega
          · simp [getValidAccessToken, hf, hte, hle] at hres
            rcases hres with ⟨-, h2⟩
            cases h2
            rw [hte] at hexp'
            have : exp = e := by injection hexp'
            omega

/-- **C1 witness.** A concrete expired-token refresh: stored expiry 500 is
before now = 1000, a refresh token is stored, and the provider returns a new
token pair with `expires_in` 3600. -/
theorem getValidAccessToken_spec_witness :
    getValidAccessToken 1000 (fun _ => some ⟨"new", "rt2", 3600⟩)
      (some ⟨some "old", some "rt", some 500⟩) =
      .ok ("new", some ⟨some "new", some "rt2", some (1000 + 3600 * 1000)⟩) :=
  (getValidAccessToken_spec 1000 (fun _ => some ⟨"new", "rt2", 3600⟩)
    (some ⟨some "old", some "rt", some 500⟩)
    (by intro rt t h; injection h with h; rw [← h]; decide)).2.2.1
    ⟨some "old", some "rt", some 500⟩ 500 "rt" ⟨"new", "rt2", 3600⟩
    rfl (by decide) rfl (by decide) rfl (by decide) rfl

/-- **C8.** Calling analyze on a meeting whose stored transcript text is
empty (or null — both are falsy under `!meeting.transcriptText`) fails with
`NoTranscript` (`HTTPException(400, 'No transcript available for
analysis')`) and returns the database unchanged — zero Task rows are
created and `summary`/`bulletPoints`/`aiNotes` keep their values — and the
result is the same for every LLM environment, i.e. the failure happens
before the LLM is invoked. -/
theorem analyzeMeeting_noTranscript (env env' : AnalyzeEnv) (db : Db)
    (userId meetingId : String) (m : MeetingRow)
    (hfind : findMeeting db meetingId userId = some m)
    (hempty : jsFalsy m.transcriptText = true) :
    analyzeMeeting env db userId meetingId =
      (.error ⟨400, "No transcript available for analysis"⟩, db)
    ∧ analyzeMeeting env db userId meetingId =
      analyzeMeeting env' db userId meetingId := by
  constructor <;> simp [analyzeMeeting, hfind, hempty]

/-- **C8 witness.** A concrete meeting whose `transcriptText` is the empty
string: analysis fails with 400 and the database is untouched. -/
theorem analyzeMeeting_noTranscript_witness :
    analyzeMeeting ⟨fun _ _ _ _ => .error ⟨500, "llm"⟩⟩
      ⟨[{ id := "m1", userId := "u1", zoomMeetingId := "z1", uuid := "uu",
          topic := "Weekly", startTime := 0, endTime := none, duration := none,
          recordingUrl := none, recordingPassword := none, transcript := none,
          transcriptText := some "", speakers := none, summary := none,
          bulletPoints := none, aiNotes := none }], [], [], 0⟩ "u1" "m1" =
      (.error ⟨400, "No transcript available for analysis"⟩,
       ⟨[{ id := "m1", userId := "u1", zoomMeetingId := "z1", uuid := "uu",
           topic := "Weekly", startTime := 0, endTime := none, duration := none,
           recordingUrl := none, recordingPassword := none, transcript := none,
           transcriptText := some "", speakers := none, summary := none,
           bulletPoints := none, aiNotes := none }], [], [], 0⟩) :=
  (analyzeMeeting_noTranscript ⟨fun _ _ _ _ => .error ⟨500, "llm"⟩⟩
    ⟨fun _ _ _ _ => .error ⟨500, "llm"⟩⟩
    ⟨[{ id := "m1", userId := "u1", zoomMeetingId := "z1", uuid := "uu",
        topic := "Weekly", startTime := 0, endTime := none, duration := none,
        recordingUrl := none, recordingPassword := none, transcript := none,
        transcriptText := some "", speakers := none, summary := none,
        bulletPoints := none, aiNotes := none }], [], [], 0⟩ "u1" "m1"
    { id := "m1", userId := "u1", zoomMeetingId := "z1", uuid := "uu",
      topic := "Weekly", startTime := 0, endTime := none, duration := none,
      recordingUrl := none, recordingPassword := none, transcript := none,
      transcriptText := some "", speakers := none, summary := none,
      bulletPoints := none, aiNotes := none } rfl rfl).1

/-- **C9.** For all four export formats (PDF, Word, Markdown, JSON), when
`includeTranscript` is false the produced artifact is identical to the one
produced from the same meeting data with the transcript erased — the
artifact does not depend on, and hence never contains, the meeting's
transcript text — and the JSON payload's `transcript` field is absent. -/
theorem export_excludes_transcript (env : RenderEnv)
    (data : MeetingExportData) (opts : ExportOptions)
    (h : opts.includeTranscript = false) :
    exportAsPDF env data opts = exportAsPDF env { data with transcript := none } opts
    ∧ exportAsWord env data opts = exportAsWord env { data with transcript := none } opts
    ∧ exportAsMarkdown env data opts = exportAsMarkdown env { data with transcript := none } opts
    ∧ exportAsJSON env data opts = exportAsJSON env { data with transcript := none } opts
    ∧ (exportAsJSON env data opts).transcript = none := by
  refine ⟨?_, ?_, ?_, ?_, ?_⟩ <;>
    simp [exportAsPDF, exportAsWord, exportAsMarkdown, exportAsJSON, h]

/-- **C9 witness.** A concrete export with `includeTranscript := false` over
data containing the transcript `"SECRET"`: all four artifacts equal the ones
rendered with no transcript at all. -/
theorem export_excludes_transcript_witness :
    exportAsMarkdown ⟨fun t => toString t, fun t => toString t, "2025-01-01"⟩
      { meetingId := "m1", topic := "Weekly", startTime := 0, duration := some 30,
        summary := some "sum", transcript := some "SECRET",
        actionItems := none, speakerInsights := none }
      ⟨true, false, true, true⟩ =
    exportAsMarkdown ⟨fun t => toString t, fun t => toString t, "2025-01-01"⟩
      { meetingId := "m1", topic := "Weekly", startTime := 0, duration := some 30,
        summary := some "sum", transcript := none,
        actionItems := none, speakerInsights := none }
      ⟨true, false, true, true⟩ :=
  (export_excludes_transcript ⟨fun t => toString t, fun t => toString t, "2025-01-01"⟩
    { meetingId := "m1", topic := "Weekly", startTime := 0, duration := some 30,
      summary := some "sum", transcript := some "SECRET",
      actionItems := none, speakerInsights := none }
    ⟨true, false, true, true⟩ rfl).2.2.1

/-- **C5 counterexample.** With both email recipients and a Slack channel
given and a failing email transport, the service attempts only the email
channel — the Slack message is never attempted — refuting the claim that
both channels are attempted even when one fails. -/
theorem notification_email_failure_skips_slack :
    (sendMeetingSummaryNotification
      ⟨fun t => toString t, fun t => toString t, "iso"⟩
      ⟨fun _ _ _ => .error "smtp down", fun _ _ => .ok "ts"⟩
      ⟨[{ id := "m1", userId := "u1", zoomMeetingId := "z1", uuid := "uu",
          topic := "Weekly", startTime := 0, endTime := none, duration := none,
          recordingUrl := none, recordingPassword := none, transcript := none,
          transcriptText := none, speakers := none, summary := none,
          bulletPoints := none, aiNotes := none }], [], [], 0⟩
      ⟨"m1", ["a@example.com"], false, some "#general"⟩).2 = [Channel.email]
    ∧ Channel.slack ∉ (sendMeetingSummaryNotification
      ⟨fun t => toString t, fun t => toString t, "iso"⟩
      ⟨fun _ _ _ => .error "smtp down", fun _ _ => .ok "ts"⟩
      ⟨[{ id := "m1", userId := "u1", zoomMeetingId := "z1", uuid := "uu",
          topic := "Weekly", startTime := 0, endTime := none, duration := none,
          recordingUrl := none, recordingPassword := none, transcript := none,
          transcriptText := none, speakers := none, summary := none,
          bulletPoints := none, aiNotes := none }], [], [], 0⟩
      ⟨"m1", ["a@example.com"], false, some "#general"⟩).2 := by
  constructor
  · rfl
  · intro h
    simp [sendMeetingSummaryNotification] at h

/-- **C5 (amended).** The notification service attempts the email first and
the Slack message second, and surfaces each attempted channel's failure as
an error: (i) when recipients are given and the email send fails, the error
is surfaced and only the email was attempted (the Slack message is not
attempted); (ii) when the email succeeds and the Slack send fails, both were
attempted and the Slack error is surfaced — so a Slack failure never
prevents the email; (iii) with no recipients, a failing Slack send is still
attempted and surfaced; (iv) when every attempted channel succeeds the
service returns ok having attempted email then Slack. -/
theorem sendMeetingSummaryNotification_channels (renv : RenderEnv)
    (env : NotifyEnv) (db : Db) (params : SummaryParams) (meeting : MeetingRow)
    (hfind : db.meetings.find? (fun m => m.id == params.meetingId) = some meeting) :
    (∀ msg, params.recipients.isEmpty = false →
      env.sendMail params.recipients (summarySubject renv meeting)
        (summaryEmailHtml renv meeting params.includeActionItems
          (summaryTasks db params meeting)) = .error msg →
      sendMeetingSummaryNotification renv env db params =
        (.error ⟨500, "Failed to send email notification: " ++ msg⟩, [.email]))
    ∧
    (∀ msg ch, params.recipients.isEmpty = false →
      env.sendMail params.recipients (summarySubject renv meeting)
        (summaryEmailHtml renv meeting params.includeActionItems
          (summaryTasks db params meeting)) = .ok () →
      params.slackChannel = some ch → ch.isEmpty = false →
      env.postMessage ch (summarySlackText renv meeting params.includeActionItems
        (summaryTasks db params meeting)) = .error msg →
      sendMeetingSummaryNotification renv env db params =
        (.error ⟨500, "Failed to send Slack notification: " ++ msg⟩,
         [.email, .slack]))
    ∧
    (∀ msg ch, params.recipients.isEmpty = true →
      params.slackChannel = some ch → ch.isEmpty = false →
      env.postMessage ch (summarySlackText renv meeting params.includeActionItems
        (summaryTasks db params meeting)) = .error msg →
      sendMeetingSummaryNotification renv env db params =
        (.error ⟨500, "Failed to send Slack notification: " ++ msg⟩, [.slack]))
    ∧
    (∀ ch, params.recipients.isEmpty = false →
      env.sendMail params.recipients (summarySubject renv meeting)
        (summaryEmailHtml renv meeting params.includeActionItems
          (summaryTasks db params meeting)) = .ok () →
      params.slackChannel = some ch → ch.isEmpty = false →
      ∀ ts, env.postMessage ch (summarySlackText renv meeting params.includeActionItems
        (summaryTasks db params meeting)) = .ok ts →
      sendMeetingSummaryNotification renv env db params =
        (.ok (), [.email, .slack])) := by
  refine ⟨?_, ?_, ?_, ?_⟩
  · intro msg hrec hmail
    simp [sendMeetingSummaryNotification, hfind, hrec, hmail]
  · intro msg ch hrec hmail hch hchne hpost
    simp [sendMeetingSummaryNotification, hfind, hrec, hmail, hch,
      jsFalsy_some, hchne, hpost]
  · intro msg ch hrec hch hchne hpost
    simp [sendMeetingSummaryNotification, hfind, hrec, hch,
      jsFalsy_some, hchne, hpost]
  · intro ch hrec hmail hch hchne ts hpost
    simp [sendMeetingSummaryNotification, hfind, hrec, hmail, hch,
      jsFalsy_some, hchne, hpost]

/-- **C5 witness.** A concrete run of case (ii): the email succeeds, the
Slack send fails, both channels were attempted and the Slack failure is
surfaced. -/
theorem sendMeetingSummaryNotification_channels_witness :
    sendMeetingSummaryNotification
      ⟨fun t => toString t, fun t => toString t, "iso"⟩
      ⟨fun _ _ _ => .ok (), fun _ _ => .error "channel_not_found"⟩
      ⟨[{ id := "m1", userId := "u1", zoomMeetingId := "z1", uuid := "uu",
          topic := "Weekly", startTime := 0, endTime := none, duration := none,
          recordingUrl := none, recordingPassword := none, transcript := none,
          transcriptText := none, speakers := none, summary := none,
          bulletPoints := none, aiNotes := none }], [], [], 0⟩
      ⟨"m1", ["a@example.com"], false, some "#general"⟩ =
      (.error ⟨500, "Failed to send Slack notification: channel_not_found"⟩,
       [Channel.email, Channel.slack]) :=
  (sendMeetingSummaryNotification_channels
    ⟨fun t => toString t, fun t => toString t, "iso"⟩
    ⟨fun _ _ _ => .ok (), fun _ _ => .error "channel_not_found"⟩
    ⟨[{ id := "m1", userId := "u1", zoomMeetingId := "z1", uuid := "uu",
        topic := "Weekly", startTime := 0, endTime := none, duration := none,
        recordingUrl := none, recordingPassword := none, transcript := none,
        transcriptText := none, speakers := none, summary := none,
        bulletPoints := none, aiNotes := none }], [], [], 0⟩
    ⟨"m1", ["a@example.com"], false, some "#general"⟩
    { id := "m1", userId := "u1", zoomMeetingId := "z1", uuid := "uu",
      topic := "Weekly", startTime := 0, endTime := none, duration := none,
      recordingUrl := none, recordingPassword := none, transcript := none,
      transcriptText := none, speakers := none, summary := none,
      bulletPoints := none, aiNotes := none } rfl).2.1
    "channel_not_found" "#general" rfl rfl rfl rfl rfl

/-- **C6 counterexample.** Two stores of *different* contents under the same
meeting and timestamp produce the *same* generated file name — the name is
not derived from a content hash: the 8-character digest prefix hashes the
string `meetingId-timestamp`, in which the file's bytes play no part. -/
theorem storeRecordingLocally_ignores_content :
    storeRecordingLocally
      ⟨fun _ => .error ⟨404, "none"⟩, fun _ => .error "offline",
       fun _ _ => .ok (), fun s => s, 0⟩ [0]
      ⟨"m1", "MP4", 5, "shared_screen", some "u", some "p", none, none⟩ =
      .ok ("uploads/recordings/recording-m1-m1-0.mp4",
           "/api/recordings/recording-m1-m1-0.mp4")
    ∧ storeRecordingLocally
      ⟨fun _ => .error ⟨404, "none"⟩, fun _ => .error "offline",
       fun _ _ => .ok (), fun s => s, 0⟩ [1]
      ⟨"m1", "MP4", 5, "shared_screen", some "u", some "p", none, none⟩ =
      .ok ("uploads/recordings/recording-m1-m1-0.mp4",
           "/api/recordings/recording-m1-m1-0.mp4")
    ∧ ([0] : Bytes) ≠ [1] :=
  ⟨rfl, rfl, by decide⟩

/-- **C6 (amended).** Every imported file is stored under
`recording-<meetingId>-<hash8>.<ext>` where `hash8` is the 8-character
prefix of the MD5 digest of the string `meetingId-timestamp` — a function of
the meeting id and the current time only, not of the file content — and the
extension is mapped from the file type: MP4→mp4, TRANSCRIPT→vtt, CHAT→txt,
and any unrecognised type →bin: (i) a successful store returns exactly that
path and URL whatever the buffer was; (ii) the digest function is consulted
only at the input `meetingId-timestamp`; (iii)–(vi) the extension map. -/
theorem storeRecordingLocally_name_spec :
    (∀ (env : ImportEnv) (buffer : Bytes) (meta : RecordingMetadata)
      (out : String × String),
      storeRecordingLocally env buffer meta = .ok out →
      out.1 = "uploads/recordings/" ++
        generateFileName env.md5hex env.now meta.meetingId meta.fileType ∧
      out.2 = "/api/recordings/" ++
        generateFileName env.md5hex env.now meta.meetingId meta.fileType)
    ∧
    (∀ (md5 md5' : String → String) (now : Nat) (mid ft : String),
      md5 (mid ++ "-" ++ toString now) = md5' (mid ++ "-" ++ toString now) →
      generateFileName md5 now mid ft = generateFileName md5' now mid ft)
    ∧ getFileExtension "MP4" = "mp4"
    ∧ getFileExtension "TRANSCRIPT" = "vtt"
    ∧ getFileExtension "CHAT" = "txt"
    ∧ (∀ t : String, toUpperCase t ≠ "MP4" → toUpperCase t ≠ "M4A" →
        toUpperCase t ≠ "CHAT" → toUpperCase t ≠ "TRANSCRIPT" → toUpperCase t ≠ "CC" →
        toUpperCase t ≠ "CSV" → getFileExtension t = "bin") := by
  refine ⟨?_, ?_, rfl, rfl, rfl, ?_⟩
  · intro env buffer meta out h
    simp only [storeRecordingLocally] at h
    cases hw : env.write ("uploads/recordings/" ++
        generateFileName env.md5hex env.now meta.meetingId meta.fileType) buffer with
    | error e => rw [hw] at h; cases h
    | ok u =>
      rw [hw] at h
      injection h with h'
      rw [← h']
      exact ⟨rfl, rfl⟩
  · intro md5 md5' now mid ft h
    unfold generateFileName
    rw [h]
  · intro t h1 h2 h3 h4 h5 h6
    simp [getFileExtension, h1, h2, h3, h4, h5, h6]

/-- **C6 witness.** Instantiating the name characterisation on a concrete
successful store: a chat log stored for meeting `m2` at timestamp 42 lands
at `recording-m2-<digest prefix>.txt`. -/
theorem storeRecordingLocally_name_spec_witness :
    storeRecordingLocally
      ⟨fun _ => .error ⟨404, "none"⟩, fun _ => .error "offline",
       fun _ _ => .ok (), fun s => "d1g3st0f" ++ s, 42⟩ [9, 9]
      ⟨"m2", "CHAT", 2, "chat_file", some "u", some "p", none, none⟩ =
      .ok ("uploads/recordings/recording-m2-d1g3st0f.txt",
           "/api/recordings/recording-m2-d1g3st0f.txt")
    ∧ getFileExtension "WEIRD" = "bin" := by
  constructor
  · have h := (storeRecordingLocally_name_spec.1
      ⟨fun _ => .error ⟨404, "none"⟩, fun _ => .error "offline",
       fun _ _ => .ok (), fun s => "d1g3st0f" ++ s, 42⟩ [9, 9]
      ⟨"m2", "CHAT", 2, "chat_file", some "u", some "p", none, none⟩
      ("uploads/recordings/recording-m2-d1g3st0f.txt",
       "/api/recordings/recording-m2-d1g3st0f.txt") rfl)
    exact rfl
  · exact storeRecordingLocally_name_spec.2.2.2.2.2 "WEIRD"
      (by decide) (by decide) (by decide) (by decide) (by decide) (by decide)

/-- A successful `meetingCreate` appends the row, and the row's
`zoomMeetingId` was fresh. -/
theorem meetingCreate_ok (db : Db) (row : MeetingRow) (db' : Db)
    (h : meetingCreate db row = .ok db') :
    db'.meetings = db.meetings ++ [row] ∧
    ∀ m ∈ db.meetings, m.zoomMeetingId ≠ row.zoomMeetingId := by
  unfold meetingCreate at h
  by_cases hc : db.meetings.any (fun m => m.zoomMeetingId == row.zoomMeetingId) = true
  · rw [if_pos hc] at h; cases h
  · rw [if_neg hc] at h
    injection h with h'
    refine ⟨by rw [← h'], ?_⟩
    intro m hm heq
    exact hc (List.any_eq_true.mpr ⟨m, hm, by simp [heq]⟩)

/-- `syncOne` preserves uniqueness of `zoomMeetingId`. -/
theorem syncOne_unique (env : SyncEnv) (uid : String) (db : Db)
    (zm : ZoomMeetingInfo) (h : UniqueZoomIds db) :
    UniqueZoomIds (syncOne env uid db zm).1 := by
  unfold syncOne
  by_cases hf : (db.meetings.find? (fun m => m.zoomMeetingId == toString zm.id)).isSome = true
  · rw [if_pos hf]; exact h
  · rw [if_neg hf]
    cases hc : meetingCreate db (mkSyncedMeeting db uid zm
        ((env.getRecordings (toString zm.id)).toOption)
        (((env.getTranscript (toString zm.id)).toOption).join)) with
    | error e => simp only [hc]; exact h
    | ok db' =>
      simp only [hc]
      obtain ⟨hmeet, hfresh⟩ := meetingCreate_ok _ _ _ hc
      unfold UniqueZoomIds
      rw [hmeet, List.pairwise_append]
      exact ⟨h, by simp, by
        intro a ha b hb
        simp only [List.mem_singleton] at hb
        subst hb
        exact hfresh a ha⟩

/-- `syncOne` never removes rows and never adds a row whose `zoomMeetingId`
is already present: the rows matching an already-present id are untouched. -/
theorem syncOne_filter_frozen (env : SyncEnv) (uid : String) (db : Db)
    (zm : ZoomMeetingInfo) (z : String)
    (hz : db.meetings.any (fun m => m.zoomMeetingId == z) = true) :
    ((syncOne env uid db zm).1).meetings.filter (fun m => m.zoomMeetingId == z) =
      db.meetings.filter (fun m => m.zoomMeetingId == z) ∧
    ((syncOne env uid db zm).1).meetings.any (fun m => m.zoomMeetingId == z) = true := by
  unfold syncOne
  by_cases hf : (db.meetings.find? (fun m => m.zoomMeetingId == toString zm.id)).isSome = true
  · rw [if_pos hf]
    exact ⟨by simp, hz⟩
  · rw [if_neg hf]
    set row := mkSyncedMeeting db uid zm
        ((env.getRecordings (toString zm.id)).toOption)
        (((env.getTranscript (toString zm.id)).toOption).join) with hrowdef
    cases hc : meetingCreate db row with
    | error e => simp only [hc]; exact ⟨trivial, hz⟩
    | ok db' =>
      simp only [hc]
      obtain ⟨hmeet, hfresh⟩ := meetingCreate_ok _ _ _ hc
      obtain ⟨m0, hm0, hm0z⟩ := List.any_eq_true.mp hz
      have hne := hfresh m0 hm0
      have hrow : (row.zoomMeetingId == z) = false := by
        simp only [beq_eq_false_iff_ne]
        intro hrz
        rw [beq_iff_eq] at hm0z
        exact hne (hm0z.trans hrz.symm)
      constructor
      · rw [hmeet, List.filter_append, List.filter_cons]
        simp [hrow]
      · rw [hmeet, List.any_append]
        simp [hz]

/-- `syncPage` preserves uniqueness of `zoomMeetingId`. -/
theorem syncPage_unique (env : SyncEnv) (uid : String)
    (zms : List ZoomMeetingInfo) (db : Db) (h : UniqueZoomIds db) :
    UniqueZoomIds (syncPage env uid db zms).1 := by
  induction zms generalizing db with
  | nil => exact h
  | cons zm zms ih =>
    simp only [syncPage]
    exact ih _ (syncOne_unique env uid db zm h)

/-- `syncPage` leaves the rows of an already-present `zoomMeetingId`
untouched. -/
theorem syncPage_filter_frozen (env : SyncEnv) (uid : String)
    (zms : List ZoomMeetingInfo) (db : Db) (z : String)
    (hz : db.meetings.any (fun m => m.zoomMeetingId == z) = true) :
    ((syncPage env uid db zms).1).meetings.filter (fun m => m.zoomMeetingId == z) =
      db.meetings.filter (fun m => m.zoomMeetingId == z) ∧
    ((syncPage env uid db zms).1).meetings.any (fun m => m.zoomMeetingId == z) = true := by
  induction zms generalizing db with
  | nil => exact ⟨rfl, hz⟩
  | cons zm zms ih =>
    simp only [syncPage]
    obtain ⟨h1, h2⟩ := syncOne_filter_frozen env uid db zm z hz
    obtain ⟨h3, h4⟩ := ih _ h2
    exact ⟨by rw [h3, h1], h4⟩

/-- `syncPages` preserves uniqueness of `zoomMeetingId`. -/
theorem syncPages_unique (env : SyncEnv) (uid : String)
    (pages : List (Except String (List ZoomMeetingInfo))) (db : Db)
    (h : UniqueZoomIds db) :
    UniqueZoomIds (syncPages env uid db pages).1 := by
  induction pages generalizing db with
  | nil => exact h
  | cons page rest ih =>
    cases page with
    | error msg => exact h
    | ok zms =>
      simp only [syncPages]
      exact ih _ (syncPage_unique env uid zms db h)

/-- `syncPages` leaves the rows of an already-present `zoomMeetingId`
untouched. -/
theorem syncPages_filter_frozen (env : SyncEnv) (uid : String)
    (pages : List (Except String (List ZoomMeetingInfo))) (db : Db) (z : String)
    (hz : db.meetings.any (fun m => m.zoomMeetingId == z) = true) :
    ((syncPages env uid db pages).1).meetings.filter (fun m => m.zoomMeetingId == z) =
      db.meetings.filter (fun m => m.zoomMeetingId == z) ∧
    ((syncPages env uid db pages).1).meetings.any (fun m => m.zoomMeetingId == z) = true := by
  induction pages generalizing db with
  | nil => exact ⟨rfl, hz⟩
  | cons page rest ih =>
    cases page with
    | error msg => exact ⟨rfl, hz⟩
    | ok zms =>
      simp only [syncPages]
      obtain ⟨h1, h2⟩ := syncPage_filter_frozen env uid zms db z hz
      obtain ⟨h3, h4⟩ := ih _ h2
      exact ⟨by rw [h3, h1], h4⟩

/-- **C4.** At most one `Meeting` row ever exists per Zoom meeting id:
(i) `syncMeetings` preserves the uniqueness invariant on
`Meeting.zoomMeetingId` — it looks an incoming Zoom meeting up by
`zoomMeetingId` before creating a row — and (ii) the unique index
`Meeting_zoomMeetingId_key` makes any insert (racing or not) whose
`zoomMeetingId` is already present fail with a unique-constraint error
instead of silently duplicating the row. -/
theorem syncMeetings_unique_zoomMeetingId (env : SyncEnv) (userId : String)
    (db : Db) (h : UniqueZoomIds db) :
    UniqueZoomIds (syncMeetings env userId db).2
    ∧ (∀ (db' : Db) (row : MeetingRow),
        (∃ m ∈ db'.meetings, m.zoomMeetingId = row.zoomMeetingId) →
        meetingCreate db' row =
          .error "Unique constraint failed on the fields: (`zoomMeetingId`)") := by
  constructor
  · unfold syncMeetings
    exact syncPages_unique env userId env.pages db h
  · rintro db' row ⟨m, hm, heq⟩
    unfold meetingCreate
    rw [if_pos (List.any_eq_true.mpr ⟨m, hm, by simp [heq]⟩)]

/-- **C4 witness.** A run over a database holding one synced meeting, with a
provider page reporting the same Zoom meeting id 5: uniqueness is preserved,
and a direct duplicate insert is rejected by the constraint. -/
theorem syncMeetings_unique_zoomMeetingId_witness :
    UniqueZoomIds (syncMeetings
      ⟨[.ok [⟨5, "uu", "Weekly", 0, none⟩]], fun _ => .error "offline",
       fun _ => .error "offline"⟩ "userB"
      ⟨[{ id := "m1", userId := "userA", zoomMeetingId := "5", uuid := "uu",
          topic := "Weekly", startTime := 0, endTime := none, duration := none,
          recordingUrl := none, recordingPassword := none, transcript := none,
          transcriptText := none, speakers := none, summary := none,
          bulletPoints := none, aiNotes := none }], [], [], 0⟩).2 :=
  (syncMeetings_unique_zoomMeetingId
    ⟨[.ok [⟨5, "uu", "Weekly", 0, none⟩]], fun _ => .error "offline",
     fun _ => .error "offline"⟩ "userB"
    ⟨[{ id := "m1", userId := "userA", zoomMeetingId := "5", uuid := "uu",
        topic := "Weekly", startTime := 0, endTime := none, duration := none,
        recordingUrl := none, recordingPassword := none, transcript := none,
        transcriptText := none, speakers := none, summary := none,
        bulletPoints := none, aiNotes := none }], [], [], 0⟩
    (by simp [UniqueZoomIds])).1

/-- **C10.** When user A's sync has already created the `Meeting` row for a
Zoom meeting id, a later sync by a different user B whose provider results
include the same id silently skips it: the duplicate check looks the meeting
up by `zoomMeetingId` alone (ignoring the owning user), so `syncOne` leaves
the database unchanged, counts nothing synced and records no error; over a
whole run, the rows carrying that Zoom meeting id are exactly the
pre-existing ones — no row owned by B is created for it. -/
theorem syncMeetings_cross_user_skip (env : SyncEnv) (userA userB : String)
    (db : Db) (zm : ZoomMeetingInfo) (mA : MeetingRow)
    (hfind : db.meetings.find? (fun m => m.zoomMeetingId == toString zm.id) = some mA)
    (_howner : mA.userId = userA) (_hneq : userA ≠ userB) :
    syncOne env userB db zm = (db, 0, [])
    ∧ ((syncMeetings env userB db).2).meetings.filter
        (fun m => m.zoomMeetingId == toString zm.id) =
      db.meetings.filter (fun m => m.zoomMeetingId == toString zm.id) := by
  constructor
  · unfold syncOne
    rw [if_pos (by rw [hfind]; rfl)]
  · unfold syncMeetings
    have hmem := List.mem_of_find?_eq_some hfind
    have hp := List.find?_some hfind
    exact (syncPages_filter_frozen env userB env.pages db (toString zm.id)
      (List.any_eq_true.mpr ⟨mA, hmem, hp⟩)).1

/-- **C10 witness.** User B syncs a provider page containing Zoom meeting id
5, already synced by user A: the step is a silent no-op and after the run
the only row with `zoomMeetingId = "5"` is still A's. -/
theorem syncMeetings_cross_user_skip_witness :
    syncOne ⟨[.ok [⟨5, "uu", "Weekly", 0, none⟩]], fun _ => .error "offline",
       fun _ => .error "offline"⟩ "userB"
      ⟨[{ id := "m1", userId := "userA", zoomMeetingId := "5", uuid := "uu",
          topic := "Weekly", startTime := 0, endTime := none, duration := none,
          recordingUrl := none, recordingPassword := none, transcript := none,
          transcriptText := none, speakers := none, summary := none,
          bulletPoints := none, aiNotes := none }], [], [], 0⟩
      ⟨5, "uu", "Weekly", 0, none⟩ =
      (⟨[{ id := "m1", userId := "userA", zoomMeetingId := "5", uuid := "uu",
           topic := "Weekly", startTime := 0, endTime := none, duration := none,
           recordingUrl := none, recordingPassword := none, transcript := none,
           transcriptText := none, speakers := none, summary := none,
           bulletPoints := none, aiNotes := none }], [], [], 0⟩, 0, []) :=
  (syncMeetings_cross_user_skip
    ⟨[.ok [⟨5, "uu", "Weekly", 0, none⟩]], fun _ => .error "offline",
     fun _ => .error "offline"⟩ "userA" "userB"
    ⟨[{ id := "m1", userId := "userA", zoomMeetingId := "5", uuid := "uu",
        topic := "Weekly", startTime := 0, endTime := none, duration := none,
        recordingUrl := none, recordingPassword := none, transcript := none,
        transcriptText := none, speakers := none, summary := none,
        bulletPoints := none, aiNotes := none }], [], [], 0⟩
    ⟨5, "uu", "Weekly", 0, none⟩
    { id := "m1", userId := "userA", zoomMeetingId := "5", uuid := "uu",
      topic := "Weekly", startTime := 0, endTime := none, duration := none,
      recordingUrl := none, recordingPassword := none, transcript := none,
      transcriptText := none, speakers := none, summary := none,
      bulletPoints := none, aiNotes := none }
    rfl rfl (by decide)).1

/-- `fileStep` is determined by the file's outcome: skipped files leave the
state alone, failing files record their error entry, imported files insert
the `Recording` row and conditionally update the meeting's recording URL. -/
theorem fileStep_eq (env : ImportEnv) (meeting : MeetingRow)
    (snapshot : List RecordingRow) (types : List String) (db : Db)
    (f : RecordingFile) :
    fileStep env meeting snapshot types db f =
      match fileOutcome env meeting snapshot types f with
      | .skippedType => (db, none, none)
      | .skippedDup => (db, none, none)
      | .failed msg => (db, none, some ⟨f.file_type, msg⟩)
      | .success url =>
        let rd := storeRecordingMetadata db meeting.id url (metadataOf meeting.id f)
        let db2 := if f.file_type == "MP4" && jsFalsy meeting.recordingUrl then
            updateMeetingRecordingUrl rd.2 meeting.id url
          else rd.2
        (db2, some ⟨rd.1.id, f.file_type, f.file_size, url, f.recording_type⟩, none) := by
  unfold fileStep fileOutcome
  by_cases h1 : types.contains f.file_type = true
  · rw [if_neg (not_not_intro h1), if_neg (not_not_intro h1)]
    by_cases h2 : (snapshot.find? (fun r => r.downloadUrl == some f.download_url)).isSome = true
    · rw [if_pos h2, if_pos h2]
    · rw [if_neg h2, if_neg h2]
      cases hd : env.download f.download_url with
      | error msg => simp [hd]
      | ok buffer =>
        cases hs : storeRecordingLocally env buffer (metadataOf meeting.id f) with
        | error msg => simp [hd, hs]
        | ok pu => cases pu with | mk p u => simp [hd, hs]
  · rw [if_pos h1, if_pos h1]

/-- The loop's `errors` array collects exactly the failing files' entries,
in file order — a per-file failure is recorded and does not affect any other
file's processing. -/
theorem processFiles_errors (env : ImportEnv) (meeting : MeetingRow)
    (snapshot : List RecordingRow) (types : List String) :
    ∀ (files : List RecordingFile) (db : Db),
    (processFiles env meeting snapshot types db files).2.2 =
      files.filterMap (errorOf env meeting snapshot types) := by
  intro files
  induction files with
  | nil => intro db; rfl
  | cons f fs ih =>
    intro db
    simp only [processFiles]
    rw [fileStep_eq]
    cases ho : fileOutcome env meeting snapshot types f with
    | skippedType => simp [List.filterMap_cons, errorOf, ho, ih]
    | skippedDup => simp [List.filterMap_cons, errorOf, ho, ih]
    | failed msg => simp [List.filterMap_cons, errorOf, ho, ih]
    | success url => simp [List.filterMap_cons, errorOf, ho, ih]

/-- The loop's `importedRecordings` array collects exactly the
successfully imported files' entries (up to the surrogate row id), in file order. -/
theorem processFiles_imported (env : ImportEnv) (meeting : MeetingRow)
    (snapshot : List RecordingRow) (types : List String) :
    ∀ (files : List RecordingFile) (db : Db),
    ((processFiles env meeting snapshot types db files).2.1).map entryShape =
      files.filterMap (importedShapeOf env meeting snapshot types) := by
  intro files
  induction files with
  | nil => intro db; rfl
  | cons f fs ih =>
    intro db
    simp only [processFiles]
    rw [fileStep_eq]
    cases ho : fileOutcome env meeting snapshot types f with
    | skippedType => simp [List.filterMap_cons, importedShapeOf, ho, ih]
    | skippedDup => simp [List.filterMap_cons, importedShapeOf, ho, ih]
    | failed msg => simp [List.filterMap_cons, importedShapeOf, ho, ih]
    | success url => simp [List.filterMap_cons, importedShapeOf, ho, ih, entryShape]

/-- One `fileStep` only appends `Recording` rows: nothing on a skip or a
failure, the inserted row on a success. -/
theorem fileStep_recordings (env : ImportEnv) (meeting : MeetingRow)
    (snapshot : List RecordingRow) (types : List String) (db : Db)
    (f : RecordingFile) :
    (fileStep env meeting snapshot types db f).1.recordings =
      db.recordings ++
        (match fileOutcome env meeting snapshot types f with
         | .success url => [insertedRow db meeting.id url f]
         | _ => []) := by
  rw [fileStep_eq]
  cases ho : fileOutcome env meeting snapshot types f with
  | skippedType => simp
  | skippedDup => simp
  | failed msg => simp
  | success url =>
    by_cases hmp4 : (f.file_type == "MP4" && jsFalsy meeting.recordingUrl) = true
    · simp [storeRecordingMetadata, updateMeetingRecordingUrl, insertedRow, hmp4]
    · simp [storeRecordingMetadata, updateMeetingRecordingUrl, insertedRow, hmp4]

/-- The loop only appends `Recording` rows. -/
theorem processFiles_recordings_mono (env : ImportEnv) (meeting : MeetingRow)
    (snapshot : List RecordingRow) (types : List String) :
    ∀ (files : List RecordingFile) (db : Db),
    ∃ new, (processFiles env meeting snapshot types db files).1.recordings =
      db.recordings ++ new := by
  intro files
  induction files with
  | nil => intro db; exact ⟨[], by simp [processFiles]⟩
  | cons f fs ih =>
    intro db
    have h1 := fileStep_recordings env meeting snapshot types db f
    rcases hstep : fileStep env meeting snapshot types db f with ⟨db1, e?, er?⟩
    rw [hstep] at h1
    obtain ⟨n2, h2⟩ := ih db1
    rcases hrec : processFiles env meeting snapshot types db1 fs with ⟨db2, es, ers⟩
    rw [hrec] at h2
    refine ⟨(match fileOutcome env meeting snapshot types f with
             | .success url => [insertedRow db meeting.id url f]
             | _ => []) ++ n2, ?_⟩
    simp only [processFiles, hstep, hrec]
    rw [h2, h1, List.append_assoc]

/-- When no file's outcome is a successful import, the loop changes nothing
at all: skipped and failing files leave the database untouched. -/
theorem processFiles_no_success (env : ImportEnv) (meeting : MeetingRow)
    (snapshot : List RecordingRow) (types : List String) :
    ∀ (files : List RecordingFile) (db : Db),
    (∀ f ∈ files, (fileOutcome env meeting snapshot types f).isSuccess = false) →
    (processFiles env meeting snapshot types db files).1 = db := by
  intro files
  induction files with
  | nil => intro db _; rfl
  | cons f fs ih =>
    intro db h
    have hstep : fileStep env meeting snapshot types db f =
        (db, (fileStep env meeting snapshot types db f).2.1,
             (fileStep env meeting snapshot types db f).2.2) := by
      rw [fileStep_eq]
      cases ho : fileOutcome env meeting snapshot types f with
      | skippedType => rfl
      | skippedDup => rfl
      | failed msg => rfl
      | success url =>
        have := h f (List.mem_cons_self f fs)
        rw [ho] at this
        exact absurd this (by simp [FileOutcome.isSuccess])
    rcases hs : fileStep env meeting snapshot types db f with ⟨db1, e?, er?⟩
    have hdb1 : db1 = db := by rw [hs] at hstep; exact congrArg Prod.fst hstep
    rcases hrec : processFiles env meeting snapshot types db1 fs with ⟨db2, es, ers⟩
    have hdb2 : db2 = db1 := by
      have := ih db1 (fun g hg => h g (List.mem_cons_of_mem f hg))
      rw [hrec] at this
      exact this
    simp only [processFiles, hs, hrec]
    rw [hdb2, hdb1]

/-- Each successfully imported file leaves a `Recording` row for this
meeting whose stored `downloadUrl` is the file's remote URL (`|| null`
applied). -/
theorem processFiles_success_row (env : ImportEnv) (meeting : MeetingRow)
    (snapshot : List RecordingRow) (types : List String) :
    ∀ (files : List RecordingFile) (db : Db) (f : RecordingFile) (url : String),
    f ∈ files → fileOutcome env meeting snapshot types f = .success url →
    ∃ r ∈ (processFiles env meeting snapshot types db files).1.recordings,
      r.meetingId = meeting.id ∧ r.downloadUrl = orNullStr f.download_url := by
  intro files
  induction files with
  | nil => intro db f url hf; cases hf
  | cons g gs ih =>
    intro db f url hf ho
    rcases hs : fileStep env meeting snapshot types db g with ⟨db1, e?, er?⟩
    rcases hrec : processFiles env meeting snapshot types db1 gs with ⟨db2, es, ers⟩
    have hgoal : (processFiles env meeting snapshot types db (g :: gs)).1 = db2 := by
      simp only [processFiles, hs, hrec]
    rw [hgoal]
    rcases List.mem_cons.mp hf with rfl | hmem
    · -- the file is the head: its row is inserted by this very step
      have h1 := fileStep_recordings env meeting snapshot types db f
      rw [hs, ho] at h1
      have hrowmem : insertedRow db meeting.id url f ∈ db1.recordings := by
        rw [h1]; simp
      obtain ⟨n2, h2⟩ := processFiles_recordings_mono env meeting snapshot types gs db1
      rw [hrec] at h2
      refine ⟨insertedRow db meeting.id url f, ?_, ?_, ?_⟩
      · rw [h2]; exact List.mem_append_left _ hrowmem
      · simp [insertedRow, storeRecordingMetadata]
      · simp [insertedRow, storeRecordingMetadata, metadataOf]
    · obtain ⟨r, hrmem, hr1, hr2⟩ := ih db1 f url hmem ho
      rw [hrec] at hrmem
      exact ⟨r, hrmem, hr1, hr2⟩

/-- `applyRu` only rewrites `recordingUrl`. -/
theorem applyRu_fields (mid : String) (ru : Option String) (m : MeetingRow) :
    (applyRu mid ru m).id = m.id ∧ (applyRu mid ru m).userId = m.userId ∧
    (applyRu mid ru m).zoomMeetingId = m.zoomMeetingId := by
  cases ru with
  | none => exact ⟨rfl, rfl, rfl⟩
  | some u =>
    simp only [applyRu]
    split_ifs <;> exact ⟨rfl, rfl, rfl⟩

/-- `applyRu` with no update is the identity on the table. -/
theorem map_applyRu_none (mid : String) (l : List MeetingRow) :
    l.map (applyRu mid none) = l := by
  induction l with
  | nil => rfl
  | cons a l ih => simp [List.map_cons, ih, applyRu]

/-- `updateMeetingRecordingUrl` is the `applyRu` update of the table. -/
theorem updateMeetingRecordingUrl_meetings (db : Db) (mid u : String) :
    (updateMeetingRecordingUrl db mid u).meetings =
      db.meetings.map (applyRu mid (some u)) := rfl

/-- Composing two `applyRu` updates keeps the `applyRu` shape. -/
theorem applyRu_comp (mid : String) (ru1 ru2 : Option String) (m : MeetingRow) :
    applyRu mid ru2 (applyRu mid ru1 m) =
      applyRu mid (ru2.orElse (fun _ => ru1)) m := by
  cases ru1 with
  | none => cases ru2 <;> rfl
  | some u1 =>
    cases ru2 with
    | none => rfl
    | some u2 =>
      by_cases hc : (m.id == mid) = true
      · simp [applyRu, Option.orElse, hc]
      · simp [applyRu, Option.orElse, hc]

/-- The loop's only effect on the `Meeting` table is an `applyRu` update of
this meeting's `recordingUrl`. -/
theorem processFiles_meetings (env : ImportEnv) (meeting : MeetingRow)
    (snapshot : List RecordingRow) (types : List String) :
    ∀ (files : List RecordingFile) (db : Db),
    ∃ ru, (processFiles env meeting snapshot types db files).1.meetings =
      db.meetings.map (applyRu meeting.id ru) := by
  intro files
  induction files with
  | nil =>
    intro db
    exact ⟨none, by simp [processFiles, map_applyRu_none]⟩
  | cons f fs ih =>
    intro db
    have hstep : ∃ ru1, (fileStep env meeting snapshot types db f).1.meetings =
        db.meetings.map (applyRu meeting.id ru1) := by
      rw [fileStep_eq]
      cases ho : fileOutcome env meeting snapshot types f with
      | skippedType => exact ⟨none, by simp [map_applyRu_none]⟩
      | skippedDup => exact ⟨none, by simp [map_applyRu_none]⟩
      | failed msg => exact ⟨none, by simp [map_applyRu_none]⟩
      | success url =>
        by_cases hmp4 : (f.file_type == "MP4" && jsFalsy meeting.recordingUrl) = true
        · refine ⟨some url, ?_⟩
          simp [hmp4, updateMeetingRecordingUrl_meetings, storeRecordingMetadata]
        · refine ⟨none, ?_⟩
          simp [hmp4, storeRecordingMetadata, map_applyRu_none]
    obtain ⟨ru1, h1⟩ := hstep
    rcases hs : fileStep env meeting snapshot types db f with ⟨db1, e?, er?⟩
    rw [hs] at h1
    obtain ⟨ru2, h2⟩ := ih db1
    rcases hrec : processFiles env meeting snapshot types db1 fs with ⟨db2, es, ers⟩
    rw [hrec] at h2
    refine ⟨ru2.orElse (fun _ => ru1), ?_⟩
    simp only [processFiles, hs, hrec]
    rw [h2, h1, List.map_map]
    exact List.map_congr_left (fun m _ => applyRu_comp meeting.id ru1 ru2 m)

/-- `findMeeting` through an `applyRu`-mapped table finds the updated row:
the lookup key (`id`, `userId`) is untouched by the update. -/
theorem findMeeting_applyRu (db db' : Db) (mid : String) (ru : Option String)
    (a b : String)
    (h : db'.meetings = db.meetings.map (applyRu mid ru)) :
    findMeeting db' a b = (findMeeting db a b).map (applyRu mid ru) := by
  unfold findMeeting
  rw [h, List.find?_map]
  have hp : ((fun m : MeetingRow => m.id == a && m.userId == b) ∘ applyRu mid ru) =
      (fun m : MeetingRow => m.id == a && m.userId == b) := by
    funext m
    obtain ⟨h1, h2, -⟩ := applyRu_fields mid ru m
    simp [Function.comp, h1, h2]
  rw [hp]

/-- The outcome of a file depends on the meeting row only through its `id`. -/
theorem fileOutcome_congr_id (env : ImportEnv) (m m' : MeetingRow)
    (snapshot : List RecordingRow) (types : List String) (f : RecordingFile)
    (h : m'.id = m.id) :
    fileOutcome env m' snapshot types f = fileOutcome env m snapshot types f := by
  unfold fileOutcome
  rw [h]

/-- When the route's top-level preconditions hold — meeting found, Zoom
meeting id present, recording list fetched and non-empty — `importRecording`
returns the aggregate built by the per-file loop. -/
theorem importRecording_eq_ok (env : ImportEnv) (db : Db)
    (userId meetingId : String) (types : List String) (meeting : MeetingRow)
    (zr : ZoomRecordingData) (files : List RecordingFile)
    (hfind : findMeeting db meetingId userId = some meeting)
    (hzid : meeting.zoomMeetingId.isEmpty = false)
    (hrec : env.getRecordings meeting.zoomMeetingId = .ok zr)
    (hfiles : zr.recording_files = some files)
    (hne : files.isEmpty = false) :
    importRecording env db userId meetingId types =
      .ok ({ imported := (processFiles env meeting
               (db.recordings.filter (fun r => r.meetingId == meeting.id)) types db files).2.1
             errors := (processFiles env meeting
               (db.recordings.filter (fun r => r.meetingId == meeting.id)) types db files).2.2
             totalSize := (((processFiles env meeting
               (db.recordings.filter (fun r => r.meetingId == meeting.id)) types db files).2.1).map
                 (fun e => e.fileSize)).sum },
           (processFiles env meeting
             (db.recordings.filter (fun r => r.meetingId == meeting.id)) types db files).1) := by
  unfold importRecording
  rcases hP : processFiles env meeting
      (db.recordings.filter (fun r => r.meetingId == meeting.id)) types db files with
    ⟨db', imported, errors⟩
  simp [hfind, hzid, hrec, hfiles, hne, hP]

/-- `importRecording` raises only for the top-level preconditions: a missing
meeting, a missing Zoom meeting id, a failed recording-metadata fetch, or an
absent/empty recording list.  The per-file loop itself never raises. -/
theorem importRecording_error_cases (env : ImportEnv) (db : Db)
    (userId meetingId : String) (types : List String) (e : HttpError)
    (h : importRecording env db userId meetingId types = .error e) :
    findMeeting db meetingId userId = none
    ∨ ∃ m, findMeeting db meetingId userId = some m ∧
        (m.zoomMeetingId.isEmpty = true
         ∨ (∃ e', env.getRecordings m.zoomMeetingId = .error e')
         ∨ (∃ zr, env.getRecordings m.zoomMeetingId = .ok zr ∧
              (zr.recording_files = none ∨ zr.recording_files = some []))) := by
  cases hfind : findMeeting db meetingId userId with
  | none => exact .inl rfl
  | some m =>
    right
    refine ⟨m, rfl, ?_⟩
    cases hz : m.zoomMeetingId.isEmpty with
    | true => exact .inl rfl
    | false =>
      right
      cases hrec : env.getRecordings m.zoomMeetingId with
      | error e' => exact .inl ⟨e', rfl⟩
      | ok zr =>
        right
        refine ⟨zr, rfl, ?_⟩
        cases hfl : zr.recording_files with
        | none => exact .inl rfl
        | some files =>
          cases hfe : files.isEmpty with
          | true =>
            right
            rw [List.isEmpty_iff.mp hfe]
          | false =>
            rw [importRecording_eq_ok env db userId meetingId types m zr files
              hfind hz hrec hfl hfe] at h
            cases h

/-- **C3.** Under the route's top-level preconditions (meeting found with a
provider meeting id, recording list fetched and non-empty) the import never
raises: it returns the aggregate `{imported, errors, totalSize}` where
`errors` collects exactly the per-file download/storage failures and
`imported` exactly the successful imports, each file classified
independently of the others — so one file's failure never aborts the rest —
and `totalSize` sums the imported files' sizes; every failing requested file
contributes its `(fileType, message)` entry to `errors`; and in general an
error is raised only for the top-level preconditions (meeting missing,
no Zoom meeting id, metadata fetch failed, recording list absent or
empty), never for a per-file failure. -/
theorem importRecording_partial_failure (env : ImportEnv) (db : Db)
    (userId meetingId : String) (types : List String) (meeting : MeetingRow)
    (zr : ZoomRecordingData) (files : List RecordingFile)
    (hfind : findMeeting db meetingId userId = some meeting)
    (hzid : meeting.zoomMeetingId.isEmpty = false)
    (hrec : env.getRecordings meeting.zoomMeetingId = .ok zr)
    (hfiles : zr.recording_files = some files)
    (hne : files.isEmpty = false) :
    (importRecording env db userId meetingId types =
      .ok ({ imported := (processFiles env meeting
               (db.recordings.filter (fun r => r.meetingId == meeting.id)) types db files).2.1
             errors := (processFiles env meeting
               (db.recordings.filter (fun r => r.meetingId == meeting.id)) types db files).2.2
             totalSize := (((processFiles env meeting
               (db.recordings.filter (fun r => r.meetingId == meeting.id)) types db files).2.1).map
                 (fun e => e.fileSize)).sum },
           (processFiles env meeting
             (db.recordings.filter (fun r => r.meetingId == meeting.id)) types db files).1))
    ∧ (processFiles env meeting
         (db.recordings.filter (fun r => r.meetingId == meeting.id)) types db files).2.2 =
        files.filterMap (errorOf env meeting
          (db.recordings.filter (fun r => r.meetingId == meeting.id)) types)
    ∧ ((processFiles env meeting
         (db.recordings.filter (fun r => r.meetingId == meeting.id)) types db files).2.1).map
          entryShape =
        files.filterMap (importedShapeOf env meeting
          (db.recordings.filter (fun r => r.meetingId == meeting.id)) types)
    ∧ (∀ f ∈ files, ∀ msg,
        fileOutcome env meeting
          (db.recordings.filter (fun r => r.meetingId == meeting.id)) types f = .failed msg →
        (⟨f.file_type, msg⟩ : FileError) ∈ (processFiles env meeting
          (db.recordings.filter (fun r => r.meetingId == meeting.id)) types db files).2.2)
    ∧ (∀ (env' : ImportEnv) (db' : Db) (uid mid : String) (types' : List String)
        (e : HttpError),
        importRecording env' db' uid mid types' = .error e →
        findMeeting db' mid uid = none
        ∨ ∃ m, findMeeting db' mid uid = some m ∧
            (m.zoomMeetingId.isEmpty = true
             ∨ (∃ e', env'.getRecordings m.zoomMeetingId = .error e')
             ∨ (∃ zr', env'.getRecordings m.zoomMeetingId = .ok zr' ∧
                  (zr'.recording_files = none ∨ zr'.recording_files = some [])))) := by
  refine ⟨importRecording_eq_ok env db userId meetingId types meeting zr files
      hfind hzid hrec hfiles hne,
    processFiles_errors env meeting _ types files db,
    processFiles_imported env meeting _ types files db, ?_, ?_⟩
  · intro f hf msg ho
    rw [processFiles_errors env meeting _ types files db]
    exact List.mem_filterMap.mpr ⟨f, hf, by simp [errorOf, ho]⟩
  · intro env' db' uid mid types' e h
    exact importRecording_error_cases env' db' uid mid types' e h

/-- **C3 witness.** A concrete two-file import where the CHAT download fails
and the MP4 succeeds: the CHAT failure is recorded in `errors` while the MP4
is still imported. -/
theorem importRecording_partial_failure_witness :
    (⟨"CHAT", "download failed"⟩ : FileError) ∈
      (processFiles
        ⟨fun _ => .ok ⟨some [⟨"MP4", "dl-mp4", "pl", 10, "shared", "s", "e"⟩,
                             ⟨"CHAT", "dl-chat", "pl2", 4, "chat", "s", "e"⟩], none⟩,
         fun u => if u == "dl-chat" then .error "download failed" else .ok [1],
         fun _ _ => .ok (), fun s => s, 0⟩
        { id := "m1", userId := "u1", zoomMeetingId := "z1", uuid := "uu",
          topic := "Weekly", startTime := 0, endTime := none, duration := none,
          recordingUrl := none, recordingPassword := none, transcript := none,
          transcriptText := none, speakers := none, summary := none,
          bulletPoints := none, aiNotes := none }
        [] ["MP4", "CHAT"]
        ⟨[{ id := "m1", userId := "u1", zoomMeetingId := "z1", uuid := "uu",
            topic := "Weekly", startTime := 0, endTime := none, duration := none,
            recordingUrl := none, recordingPassword := none, transcript := none,
            transcriptText := none, speakers := none, summary := none,
            bulletPoints := none, aiNotes := none }], [], [], 0⟩
        [⟨"MP4", "dl-mp4", "pl", 10, "shared", "s", "e"⟩,
         ⟨"CHAT", "dl-chat", "pl2", 4, "chat", "s", "e"⟩]).2.2 :=
  (importRecording_partial_failure
    ⟨fun _ => .ok ⟨some [⟨"MP4", "dl-mp4", "pl", 10, "shared", "s", "e"⟩,
                         ⟨"CHAT", "dl-chat", "pl2", 4, "chat", "s", "e"⟩], none⟩,
     fun u => if u == "dl-chat" then .error "download failed" else .ok [1],
     fun _ _ => .ok (), fun s => s, 0⟩
    ⟨[{ id := "m1", userId := "u1", zoomMeetingId := "z1", uuid := "uu",
        topic := "Weekly", startTime := 0, endTime := none, duration := none,
        recordingUrl := none, recordingPassword := none, transcript := none,
        transcriptText := none, speakers := none, summary := none,
        bulletPoints := none, aiNotes := none }], [], [], 0⟩
    "u1" "m1" ["MP4", "CHAT"]
    { id := "m1", userId := "u1", zoomMeetingId := "z1", uuid := "uu",
      topic := "Weekly", startTime := 0, endTime := none, duration := none,
      recordingUrl := none, recordingPassword := none, transcript := none,
      transcriptText := none, speakers := none, summary := none,
      bulletPoints := none, aiNotes := none }
    ⟨some [⟨"MP4", "dl-mp4", "pl", 10, "shared", "s", "e"⟩,
           ⟨"CHAT", "dl-chat", "pl2", 4, "chat", "s", "e"⟩], none⟩
    [⟨"MP4", "dl-mp4", "pl", 10, "shared", "s", "e"⟩,
     ⟨"CHAT", "dl-chat", "pl2", 4, "chat", "s", "e"⟩]
    rfl rfl rfl rfl rfl).2.2.2.1
    ⟨"CHAT", "dl-chat", "pl2", 4, "chat", "s", "e"⟩ (by simp)
    "download failed" rfl

/-- On a second pass whose duplicate-check snapshot contains every row of
the first pass's snapshot plus a row per first-pass success, no file can
be imported again — provided every download URL is non-empty, so that the
stored `downloadUrl` (`|| null` applied) still equals the file's URL. -/
theorem secondRun_no_success (env : ImportEnv) (meeting : MeetingRow)
    (types : List String) (files : List RecordingFile)
    (snapshot1 snapshot2 : List RecordingRow)
    (hurl : ∀ f ∈ files, f.download_url ≠ "")
    (hsub : ∀ r ∈ snapshot1, r ∈ snapshot2)
    (hsucc : ∀ f ∈ files, ∀ url,
      fileOutcome env meeting snapshot1 types f = .success url →
      ∃ r ∈ snapshot2, r.downloadUrl = orNullStr f.download_url) :
    ∀ f ∈ files, (fileOutcome env meeting snapshot2 types f).isSuccess = false := by
  intro f hf
  by_cases ht : types.contains f.file_type = true
  · by_cases hd2 : (snapshot2.find? (fun r => r.downloadUrl == some f.download_url)).isSome = true
    · unfold fileOutcome
      rw [if_neg (not_not_intro ht), if_pos hd2]
      rfl
    · have hd1 : ¬ (snapshot1.find? (fun r => r.downloadUrl == some f.download_url)).isSome = true := by
        intro hsome
        obtain ⟨r, hr, hpr⟩ := List.find?_isSome.mp hsome
        exact hd2 (List.find?_isSome.mpr ⟨r, hsub r hr, hpr⟩)
      have heq : fileOutcome env meeting snapshot2 types f =
          fileOutcome env meeting snapshot1 types f := by
        unfold fileOutcome
        rw [if_neg (not_not_intro ht), if_neg (not_not_intro ht),
          if_neg hd2, if_neg hd1]
      rw [heq]
      cases ho : fileOutcome env meeting snapshot1 types f with
      | skippedType => rfl
      | skippedDup => rfl
      | failed msg => rfl
      | success url =>
        exfalso
        obtain ⟨r, hr, hru⟩ := hsucc f hf url ho
        apply hd2
        refine List.find?_isSome.mpr ⟨r, hr, ?_⟩
        have hnn : orNullStr f.download_url = some f.download_url := by
          unfold orNullStr
          rw [if_neg (by
            intro hemp
            exact hurl f hf ((String.isEmpty_iff f.download_url).mp hemp))]
        rw [hru, hnn]
        simp
  · unfold fileOutcome
    rw [if_pos ht]
    rfl

/-- **C2 counterexample.** A file whose remote `download_url` is the empty
string defeats the idempotence guard: `downloadUrl || null` stores NULL, and
`r.downloadUrl === ""` never matches NULL, so a second run against the same
one-file provider list imports one additional `Recording` row (1 row after
the first run, 2 after the second). -/
theorem importRecording_second_run_adds_row :
    ((importRecording
        ⟨fun _ => .ok ⟨some [⟨"MP4", "", "pl", 7, "shared", "s", "e"⟩], none⟩,
         fun _ => .ok [1], fun _ _ => .ok (), fun s => s, 0⟩
        ⟨[{ id := "m1", userId := "u1", zoomMeetingId := "z1", uuid := "uu",
            topic := "Weekly", startTime := 0, endTime := none, duration := none,
            recordingUrl := none, recordingPassword := none, transcript := none,
            transcriptText := none, speakers := none, summary := none,
            bulletPoints := none, aiNotes := none }], [], [], 0⟩
        "u1" "m1" ["MP4"]).toOption.map (fun p => p.2.recordings.length)) = some 1
    ∧ ((match importRecording
        ⟨fun _ => .ok ⟨some [⟨"MP4", "", "pl", 7, "shared", "s", "e"⟩], none⟩,
         fun _ => .ok [1], fun _ _ => .ok (), fun s => s, 0⟩
        ⟨[{ id := "m1", userId := "u1", zoomMeetingId := "z1", uuid := "uu",
            topic := "Weekly", startTime := 0, endTime := none, duration := none,
            recordingUrl := none, recordingPassword := none, transcript := none,
            transcriptText := none, speakers := none, summary := none,
            bulletPoints := none, aiNotes := none }], [], [], 0⟩
        "u1" "m1" ["MP4"] with
      | .ok (_, db1) =>
        (importRecording
          ⟨fun _ => .ok ⟨some [⟨"MP4", "", "pl", 7, "shared", "s", "e"⟩], none⟩,
           fun _ => .ok [1], fun _ _ => .ok (), fun s => s, 0⟩
          db1 "u1" "m1" ["MP4"]).toOption.map (fun p => p.2.recordings.length)
      | .error _ => none) = some 2) :=
  ⟨rfl, rfl⟩

/-- **C2 (amended).** Provided every file in the provider list has a
non-empty remote download URL, re-running the import against the same
provider file list is idempotent: the first run succeeds, the second run
succeeds and returns the database completely unchanged — zero additional
`Recording` rows and an empty `imported` array — because each file is either
still of an unrequested type, already present in the duplicate-check
snapshot, bound to fail exactly as before, or was imported by the first run
and is now skipped by the `(meetingId, sourceDownloadUrl)` check; moreover a
file whose URL already appears in the snapshot is skipped whatever the
download behaviour is, i.e. before any download is attempted. -/
theorem importRecording_idempotent (env : ImportEnv) (db : Db)
    (userId meetingId : String) (types : List String) (meeting : MeetingRow)
    (zr : ZoomRecordingData) (files : List RecordingFile)
    (hfind : findMeeting db meetingId userId = some meeting)
    (hzid : meeting.zoomMeetingId.isEmpty = false)
    (hrec : env.getRecordings meeting.zoomMeetingId = .ok zr)
    (hfiles : zr.recording_files = some files)
    (hne : files.isEmpty = false)
    (hurl : ∀ f ∈ files, f.download_url ≠ "") :
    (∀ e, importRecording env db userId meetingId types = .error e → False)
    ∧ (∀ r1 db1, importRecording env db userId meetingId types = .ok (r1, db1) →
        (∀ e, importRecording env db1 userId meetingId types = .error e → False)
        ∧ (∀ r2 db2, importRecording env db1 userId meetingId types = .ok (r2, db2) →
            db2 = db1 ∧ db2.recordings = db1.recordings ∧ r2.imported = []))
    ∧ (∀ (d' : String → Except String Bytes) (f : RecordingFile),
        types.contains f.file_type = true →
        ((db.recordings.filter (fun r => r.meetingId == meeting.id)).find?
          (fun r => r.downloadUrl == some f.download_url)).isSome = true →
        fileOutcome { env with download := d' } meeting
          (db.recordings.filter (fun r => r.meetingId == meeting.id)) types f =
          .skippedDup) := by
  have hok1 := importRecording_eq_ok env db userId meetingId types meeting zr files
    hfind hzid hrec hfiles hne
  refine ⟨?_, ?_, ?_⟩
  · intro e h
    rw [hok1] at h
    cases h
  · intro r1 db1 h1
    rw [hok1] at h1
    injection h1 with h1'
    injection h1' with ha hb
    subst hb
    -- run 2 setup
    obtain ⟨ru, hru⟩ := processFiles_meetings env meeting
      (db.recordings.filter (fun r => r.meetingId == meeting.id)) types files db
    obtain ⟨hid2, huid2, hzml2⟩ := applyRu_fields meeting.id ru meeting
    have hfind2 : findMeeting
        (processFiles env meeting
          (db.recordings.filter (fun r => r.meetingId == meeting.id)) types db files).1
        meetingId userId = some (applyRu meeting.id ru meeting) := by
      rw [findMeeting_applyRu db _ meeting.id ru meetingId userId hru, hfind]
      rfl
    have hzid2 : (applyRu meeting.id ru meeting).zoomMeetingId.isEmpty = false := by
      rw [hzml2]; exact hzid
    have hrec2 : env.getRecordings (applyRu meeting.id ru meeting).zoomMeetingId = .ok zr := by
      rw [hzml2]; exact hrec
    have hok2 := importRecording_eq_ok env
      (processFiles env meeting
        (db.recordings.filter (fun r => r.meetingId == meeting.id)) types db files).1
      userId meetingId types (applyRu meeting.id ru meeting) zr files
      hfind2 hzid2 hrec2 hfiles hne
    rw [hid2] at hok2
    -- second-run snapshot contains the first snapshot and every success row
    have hsub : ∀ r ∈ db.recordings.filter (fun rr => rr.meetingId == meeting.id),
        r ∈ ((processFiles env meeting
          (db.recordings.filter (fun rr => rr.meetingId == meeting.id)) types db files).1).recordings.filter
            (fun rr => rr.meetingId == meeting.id) := by
      obtain ⟨new, hnew⟩ := processFiles_recordings_mono env meeting
        (db.recordings.filter (fun rr => rr.meetingId == meeting.id)) types files db
      intro r hr
      rw [List.mem_filter] at hr
      rw [hnew, List.mem_filter]
      exact ⟨List.mem_append_left _ hr.1, hr.2⟩
    have hsucc : ∀ f ∈ files, ∀ url,
        fileOutcome env meeting
          (db.recordings.filter (fun rr => rr.meetingId == meeting.id)) types f = .success url →
        ∃ r ∈ ((processFiles env meeting
          (db.recordings.filter (fun rr => rr.meetingId == meeting.id)) types db files).1).recordings.filter
            (fun rr => rr.meetingId == meeting.id),
          r.downloadUrl = orNullStr f.download_url := by
      intro f hf url ho
      obtain ⟨r, hrmem, hr1, hr2⟩ := processFiles_success_row env meeting
        (db.recordings.filter (fun rr => rr.meetingId == meeting.id)) types files db f url hf ho
      exact ⟨r, List.mem_filter.mpr ⟨hrmem, by simp [hr1]⟩, hr2⟩
    have hnos := secondRun_no_success env meeting types files
      (db.recordings.filter (fun rr => rr.meetingId == meeting.id))
      (((processFiles env meeting
        (db.recordings.filter (fun rr => rr.meetingId == meeting.id)) types db files).1).recordings.filter
          (fun rr => rr.meetingId == meeting.id))
      hurl hsub hsucc
    have hnos2 : ∀ f ∈ files,
        (fileOutcome env (applyRu meeting.id ru meeting)
          (((processFiles env meeting
            (db.recordings.filter (fun rr => rr.meetingId == meeting.id)) types db files).1).recordings.filter
              (fun rr => rr.meetingId == meeting.id)) types f).isSuccess = false := by
      intro f hf
      rw [fileOutcome_congr_id env meeting (applyRu meeting.id ru meeting) _ types f hid2]
      exact hnos f hf
    have hP2db := processFiles_no_success env (applyRu meeting.id ru meeting)
      (((processFiles env meeting
        (db.recordings.filter (fun rr => rr.meetingId == meeting.id)) types db files).1).recordings.filter
          (fun rr => rr.meetingId == meeting.id)) types files
      (processFiles env meeting
        (db.recordings.filter (fun rr => rr.meetingId == meeting.id)) types db files).1 hnos2
    have hP2imp : (processFiles env (applyRu meeting.id ru meeting)
        (((processFiles env meeting
          (db.recordings.filter (fun rr => rr.meetingId == meeting.id)) types db files).1).recordings.filter
            (fun rr => rr.meetingId == meeting.id)) types
        (processFiles env meeting
          (db.recordings.filter (fun rr => rr.meetingId == meeting.id)) types db files).1 files).2.1 = [] := by
      have hmap := processFiles_imported env (applyRu meeting.id ru meeting)
        (((processFiles env meeting
          (db.recordings.filter (fun rr => rr.meetingId == meeting.id)) types db files).1).recordings.filter
            (fun rr => rr.meetingId == meeting.id)) types files
        (processFiles env meeting
          (db.recordings.filter (fun rr => rr.meetingId == meeting.id)) types db files).1
      have hall : files.filterMap (importedShapeOf env (applyRu meeting.id ru meeting)
          (((processFiles env meeting
            (db.recordings.filter (fun rr => rr.meetingId == meeting.id)) types db files).1).recordings.filter
              (fun rr => rr.meetingId == meeting.id)) types) = [] := by
        rw [List.filterMap_eq_nil_iff]
        intro f hf
        unfold importedShapeOf
        cases ho : fileOutcome env (applyRu meeting.id ru meeting)
            (((processFiles env meeting
              (db.recordings.filter (fun rr => rr.meetingId == meeting.id)) types db files).1).recordings.filter
                (fun rr => rr.meetingId == meeting.id)) types f with
        | skippedType => rfl
        | skippedDup => rfl
        | failed msg => rfl
        | success url =>
          have := hnos2 f hf
          rw [ho] at this
          exact absurd this (by simp [FileOutcome.isSuccess])
      rw [hall] at hmap
      exact List.map_eq_nil_iff.mp hmap
    constructor
    · intro e h
      rw [hok2] at h
      cases h
    · intro r2 db2 h2
      rw [hok2] at h2
      injection h2 with h2'
      injection h2' with ha2 hb2
      subst hb2
      rw [hP2db]
      refine ⟨rfl, rfl, ?_⟩
      rw [← ha2]
      exact hP2imp
  · intro d' f hcont hdup
    unfold fileOutcome
    rw [if_neg (not_not_intro hcont), if_pos hdup]

/-- **C2 witness.** After a first import of an MP4 with URL `dl1`, the file
is skipped as a duplicate on the next pass even under a download function
that always fails — the `(meetingId, sourceDownloadUrl)` check fires before
any download is attempted. -/
theorem importRecording_idempotent_witness :
    fileOutcome
      ⟨fun _ => .ok ⟨some [⟨"MP4", "dl1", "pl", 10, "shared", "s", "e"⟩], none⟩,
       fun _ => .error "network down", fun _ _ => .ok (), fun s => s, 0⟩
      { id := "m1", userId := "u1", zoomMeetingId := "z1", uuid := "uu",
        topic := "Weekly", startTime := 0, endTime := none, duration := none,
        recordingUrl := some "/api/recordings/recording-m1-m1-0.mp4",
        recordingPassword := none, transcript := none,
        transcriptText := none, speakers := none, summary := none,
        bulletPoints := none, aiNotes := none }
      (([{ id := 0, meetingId := "m1", fileType := "MP4", fileSize := 10,
           fileUrl := "/api/recordings/recording-m1-m1-0.mp4",
           downloadUrl := some "dl1", playUrl := some "pl",
           recordingType := "shared", recordingStart := some "s",
           recordingEnd := some "e" }] : List RecordingRow).filter
        (fun r => r.meetingId == "m1"))
      ["MP4"] ⟨"MP4", "dl1", "pl", 10, "shared", "s", "e"⟩ =
      FileOutcome.skippedDup :=
  (importRecording_idempotent
    ⟨fun _ => .ok ⟨some [⟨"MP4", "dl1", "pl", 10, "shared", "s", "e"⟩], none⟩,
     fun _ => .ok [1], fun _ _ => .ok (), fun s => s, 0⟩
    ⟨[{ id := "m1", userId := "u1", zoomMeetingId := "z1", uuid := "uu",
        topic := "Weekly", startTime := 0, endTime := none, duration := none,
        recordingUrl := some "/api/recordings/recording-m1-m1-0.mp4",
        recordingPassword := none, transcript := none,
        transcriptText := none, speakers := none, summary := none,
        bulletPoints := none, aiNotes := none }],
     [{ id := 0, meetingId := "m1", fileType := "MP4", fileSize := 10,
        fileUrl := "/api/recordings/recording-m1-m1-0.mp4",
        downloadUrl := some "dl1", playUrl := some "pl",
        recordingType := "shared", recordingStart := some "s",
        recordingEnd := some "e" }], [], 1⟩
    "u1" "m1" ["MP4"]
    { id := "m1", userId := "u1", zoomMeetingId := "z1", uuid := "uu",
      topic := "Weekly", startTime := 0, endTime := none, duration := none,
      recordingUrl := some "/api/recordings/recording-m1-m1-0.mp4",
      recordingPassword := none, transcript := none,
      transcriptText := none, speakers := none, summary := none,
      bulletPoints := none, aiNotes := none }
    ⟨some [⟨"MP4", "dl1", "pl", 10, "shared", "s", "e"⟩], none⟩
    [⟨"MP4", "dl1", "pl", 10, "shared", "s", "e"⟩]
    rfl rfl rfl rfl rfl
    (by
      intro f hf
      rw [List.mem_singleton] at hf
      subst hf
      decide)).2.2
    (fun _ => .error "network down")
    ⟨"MP4", "dl1", "pl", 10, "shared", "s", "e"⟩ (by decide) rfl

/-- `find?` over a filtered list is `find?` with the conjoined predicate. -/
theorem find?_filter_and {α} (l : List α) (p q : α → Bool) :
    (l.filter p).find? q = l.find? (fun a => p a && q a) := by
  induction l with
  | nil => rfl
  | cons a l ih =>
    by_cases hp : p a = true
    · by_cases hq : q a = true
      · simp [List.filter_cons, List.find?, hp, hq]
      · simp [List.filter_cons, List.find?, hp, hq, ih]
    · simp [List.filter_cons, List.find?, hp, ih]

/-- `batchFileStep` is determined by the file's outcome.  Note the two
differences from the single-meeting `fileStep`: a failing file records
nothing, and an imported MP4 updates the meeting's `recordingUrl` with no
`!meeting.recordingUrl` guard. -/
theorem batchFileStep_eq (env : ImportEnv) (m : MeetingRow)
    (types : List String) (db : Db) (f : RecordingFile) :
    batchFileStep env m types db f =
      match batchFileOutcome env m types db f with
      | .skippedType => (db, none, 0)
      | .skippedDup => (db, none, 0)
      | .failed _ => (db, none, 0)
      | .success url =>
        let rd := storeRecordingMetadata db m.id url (metadataOf m.id f)
        let db2 := if f.file_type == "MP4" then
            updateMeetingRecordingUrl rd.2 m.id url
          else rd.2
        (db2, some f.file_type, f.file_size) := by
  unfold batchFileStep batchFileOutcome
  by_cases h1 : types.contains f.file_type = true
  · rw [if_neg (not_not_intro h1), if_neg (not_not_intro h1)]
    by_cases h2 : (db.recordings.find? (fun r =>
        r.meetingId == m.id && r.downloadUrl == some f.download_url)).isSome = true
    · rw [if_pos h2, if_pos h2]
    · rw [if_neg h2, if_neg h2]
      cases hd : env.download f.download_url with
      | error msg => simp [hd]
      | ok buffer =>
        cases hs : storeRecordingLocally env buffer (metadataOf m.id f) with
        | error msg => simp [hd, hs]
        | ok pu => cases pu with | mk p u => simp [hd, hs]
  · rw [if_pos h1, if_pos h1]

/-- The batch per-file step classifies a file exactly as the
single-meeting import step does against the snapshot of this meeting's `Recording` rows:
the live `findFirst` on `(meetingId, downloadUrl)` coincides with the
snapshot lookup on `downloadUrl`. -/
theorem batchFileOutcome_eq_single (env : ImportEnv) (m : MeetingRow)
    (types : List String) (db : Db) (f : RecordingFile) :
    batchFileOutcome env m types db f =
      fileOutcome env m (db.recordings.filter (fun r => r.meetingId == m.id))
        types f := by
  unfold batchFileOutcome fileOutcome
  rw [find?_filter_and]

/-- On a success, the batch step inserts exactly the row the single-meeting
step inserts; on a skip or failure neither inserts anything. -/
theorem batchFileStep_recordings_eq_single (env : ImportEnv) (m : MeetingRow)
    (types : List String) (db : Db) (f : RecordingFile) :
    (batchFileStep env m types db f).1.recordings =
      (fileStep env m (db.recordings.filter (fun r => r.meetingId == m.id))
        types db f).1.recordings := by
  rw [batchFileStep_eq, fileStep_eq, batchFileOutcome_eq_single]
  cases ho : fileOutcome env m (db.recordings.filter (fun r => r.meetingId == m.id)) types f with
  | skippedType => rfl
  | skippedDup => rfl
  | failed msg => rfl
  | success url =>
    by_cases hmp4 : (f.file_type == "MP4") = true
    · by_cases hru : jsFalsy m.recordingUrl = true
      · simp [hmp4, hru, updateMeetingRecordingUrl]
      · simp [hmp4, hru, updateMeetingRecordingUrl]
    · simp [hmp4]

/-- A failing file leaves the batch state untouched and records nothing —
the batch route only logs per-file failures, its response carries no
per-file error entries. -/
theorem batchFileStep_failure_silent (env : ImportEnv) (m : MeetingRow)
    (types : List String) (db : Db) (f : RecordingFile) (msg : String)
    (ho : batchFileOutcome env m types db f = .failed msg) :
    batchFileStep env m types db f = (db, none, 0) := by
  rw [batchFileStep_eq, ho]

/-- An imported MP4 overwrites the meeting's `recordingUrl` whatever its
previous value was. -/
theorem batchFileStep_mp4_overwrites (env : ImportEnv) (m : MeetingRow)
    (types : List String) (db : Db) (f : RecordingFile) (url : String)
    (mrow : MeetingRow)
    (ho : batchFileOutcome env m types db f = .success url)
    (hmp4 : f.file_type = "MP4")
    (hfindm : db.meetings.find? (fun x => x.id == m.id) = some mrow) :
    (batchFileStep env m types db f).1.meetings.find? (fun x => x.id == m.id) =
      some { mrow with recordingUrl := some url } := by
  rw [batchFileStep_eq, ho]
  have hb : (f.file_type == "MP4") = true := by rw [hmp4]; rfl
  simp only [hb, if_true]
  have hmeets : (updateMeetingRecordingUrl
      (storeRecordingMetadata db m.id url (metadataOf m.id f)).2 m.id url).meetings =
      db.meetings.map (applyRu m.id (some url)) := by
    rw [updateMeetingRecordingUrl_meetings]
    rfl
  rw [hmeets, List.find?_map]
  have hp : ((fun x : MeetingRow => x.id == m.id) ∘ applyRu m.id (some url)) =
      (fun x : MeetingRow => x.id == m.id) := by
    funext x
    obtain ⟨h1, -, -⟩ := applyRu_fields m.id (some url) x
    simp [Function.comp, h1]
  rw [hp, hfindm]
  have hid : (mrow.id == m.id) = true := by
    have h := List.find?_some hfindm
    simpa using h
  simp [applyRu, hid]

/-- Processing a batch of meetings composes: the meetings of the second part
are processed against the state left by the first part, and the `successful`
and `failed` arrays concatenate — one meeting's failure never blocks the
processing of the others. -/
theorem batchProcessMeetings_append (env : ImportEnv) (types : List String) :
    ∀ (ms₁ ms₂ : List MeetingRow) (db : Db),
    batchProcessMeetings env types db (ms₁ ++ ms₂) =
      ((batchProcessMeetings env types
          (batchProcessMeetings env types db ms₁).1 ms₂).1,
       (batchProcessMeetings env types db ms₁).2.1 ++
         (batchProcessMeetings env types
           (batchProcessMeetings env types db ms₁).1 ms₂).2.1,
       (batchProcessMeetings env types db ms₁).2.2 ++
         (batchProcessMeetings env types
           (batchProcessMeetings env types db ms₁).1 ms₂).2.2) := by
  intro ms₁
  induction ms₁ with
  | nil => intro ms₂ db; simp [batchProcessMeetings]
  | cons m ms ih =>
    intro ms₂ db
    simp only [List.cons_append, batchProcessMeetings]
    rcases hs : batchMeetingStep env types db m with ⟨db1, r⟩
    simp only [List.append_eq]
    rw [ih ms₂ db1]
    cases r with
    | inl s => rfl
    | inr fl => rfl

/-- Every selected meeting contributes exactly one entry, to `successful` or
to `failed`. -/
theorem batchProcessMeetings_total (env : ImportEnv) (types : List String) :
    ∀ (ms : List MeetingRow) (db : Db),
    (batchProcessMeetings env types db ms).2.1.length +
      (batchProcessMeetings env types db ms).2.2.length = ms.length := by
  intro ms
  induction ms with
  | nil => intro db; rfl
  | cons m ms ih =>
    intro db
    simp only [batchProcessMeetings]
    rcases hs : batchMeetingStep env types db m with ⟨db1, r⟩
    rcases hr : batchProcessMeetings env types db1 ms with ⟨db2, succ, fail⟩
    have hih := ih db1
    rw [hr] at hih
    cases r with
    | inl s =>
      simp only [List.length_cons]
      simp at hih ⊢
      omega
    | inr fl =>
      simp only [List.length_cons]
      simp at hih ⊢
      omega

/-- **C7 counterexample.** For a meeting that already has a primary
recording URL (`/old`), importing an MP4 through the single-meeting route
leaves the URL untouched (`!meeting.recordingUrl` guard), while the batch
route overwrites it with the newly stored file's URL — the batch variant
does *not* apply the "only when the Meeting has no primary recording URL
yet" rule. -/
theorem batchImport_overwrites_recordingUrl :
    ((importRecording
        ⟨fun _ => .ok ⟨some [⟨"MP4", "dl1", "pl", 10, "shared", "s", "e"⟩], none⟩,
         fun _ => .ok [1], fun _ _ => .ok (), fun s => s, 0⟩
        ⟨[{ id := "m1", userId := "u1", zoomMeetingId := "z1", uuid := "uu",
            topic := "Weekly", startTime := 0, endTime := none, duration := none,
            recordingUrl := some "/old", recordingPassword := none,
            transcript := none, transcriptText := none, speakers := none,
            summary := none, bulletPoints := none, aiNotes := none }], [], [], 0⟩
        "u1" "m1" ["MP4"]).toOption.map (fun p =>
          (p.2.meetings.find? (fun m => m.id == "m1")).map (fun m => m.recordingUrl))) =
      some (some (some "/old"))
    ∧ ((batchImportRecordings
        ⟨fun _ => .ok ⟨some [⟨"MP4", "dl1", "pl", 10, "shared", "s", "e"⟩], none⟩,
         fun _ => .ok [1], fun _ _ => .ok (), fun s => s, 0⟩
        ⟨[{ id := "m1", userId := "u1", zoomMeetingId := "z1", uuid := "uu",
            topic := "Weekly", startTime := 0, endTime := none, duration := none,
            recordingUrl := some "/old", recordingPassword := none,
            transcript := none, transcriptText := none, speakers := none,
            summary := none, bulletPoints := none, aiNotes := none }], [], [], 0⟩
        "u1" ["m1"] ["MP4"]).toOption.map (fun p =>
          (p.2.meetings.find? (fun m => m.id == "m1")).map (fun m => m.recordingUrl))) =
      some (some (some "/api/recordings/recording-m1-m1-0.mp4"))
    ∧ ("/old" : String) ≠ "/api/recordings/recording-m1-m1-0.mp4" :=
  ⟨rfl, rfl, by decide⟩

/-- **C7 (amended).** The batch endpoint applies the same per-file algorithm
as the single-meeting import — each file is classified identically (type
filter, then the `(meetingId, downloadUrl)` duplicate check, then download
and store), and a successful import inserts exactly the same `Recording`
row — except that (i) a per-file failure is only logged: it records nothing
in the response and leaves the state untouched, and (ii) an imported MP4
updates the Meeting's recording URL unconditionally, overwriting any
existing value rather than only filling an absent one.  Successes and
failures are aggregated per meeting — every selected meeting contributes
exactly one `successful` or `failed` entry — and processing composes over
the meeting list, so one meeting's failure never blocks the others. -/
theorem batchImportRecordings_refines_single (env : ImportEnv)
    (types : List String) :
    (∀ (ms₁ ms₂ : List MeetingRow) (db : Db),
      batchProcessMeetings env types db (ms₁ ++ ms₂) =
        ((batchProcessMeetings env types
            (batchProcessMeetings env types db ms₁).1 ms₂).1,
         (batchProcessMeetings env types db ms₁).2.1 ++
           (batchProcessMeetings env types
             (batchProcessMeetings env types db ms₁).1 ms₂).2.1,
         (batchProcessMeetings env types db ms₁).2.2 ++
           (batchProcessMeetings env types
             (batchProcessMeetings env types db ms₁).1 ms₂).2.2))
    ∧ (∀ (ms : List MeetingRow) (db : Db),
        (batchProcessMeetings env types db ms).2.1.length +
          (batchProcessMeetings env types db ms).2.2.length = ms.length)
    ∧ (∀ (m : MeetingRow) (db : Db) (f : RecordingFile),
        batchFileOutcome env m types db f =
          fileOutcome env m (db.recordings.filter (fun r => r.meetingId == m.id))
            types f)
    ∧ (∀ (m : MeetingRow) (db : Db) (f : RecordingFile),
        (batchFileStep env m types db f).1.recordings =
          (fileStep env m (db.recordings.filter (fun r => r.meetingId == m.id))
            types db f).1.recordings)
    ∧ (∀ (m : MeetingRow) (db : Db) (f : RecordingFile) (msg : String),
        batchFileOutcome env m types db f = .failed msg →
        batchFileStep env m types db f = (db, none, 0))
    ∧ (∀ (m : MeetingRow) (db : Db) (f : RecordingFile) (url : String)
        (mrow : MeetingRow),
        batchFileOutcome env m types db f = .success url →
        f.file_type = "MP4" →
        db.meetings.find? (fun x => x.id == m.id) = some mrow →
        (batchFileStep env m types db f).1.meetings.find? (fun x => x.id == m.id) =
          some { mrow with recordingUrl := some url }) :=
  ⟨batchProcessMeetings_append env types,
   batchProcessMeetings_total env types,
   fun m db f => batchFileOutcome_eq_single env m types db f,
   fun m db f => batchFileStep_recordings_eq_single env m types db f,
   fun m db f msg h => batchFileStep_failure_silent env m types db f msg h,
   fun m db f url mrow ho hmp4 hfind =>
     batchFileStep_mp4_overwrites env m types db f url mrow ho hmp4 hfind⟩

/-- **C7 witness.** The unconditional-update clause at a concrete input: a
batch MP4 import on a meeting whose `recordingUrl` is `/old` rewrites it to
the new storage URL. -/
theorem batchImportRecordings_refines_single_witness :
    (batchFileStep
      ⟨fun _ => .ok ⟨some [⟨"MP4", "dl1", "pl", 10, "shared", "s", "e"⟩], none⟩,
       fun _ => .ok [1], fun _ _ => .ok (), fun s => s, 0⟩
      { id := "m1", userId := "u1", zoomMeetingId := "z1", uuid := "uu",
        topic := "Weekly", startTime := 0, endTime := none, duration := none,
        recordingUrl := some "/old", recordingPassword := none,
        transcript := none, transcriptText := none, speakers := none,
        summary := none, bulletPoints := none, aiNotes := none }
      ["MP4"]
      ⟨[{ id := "m1", userId := "u1", zoomMeetingId := "z1", uuid := "uu",
          topic := "Weekly", startTime := 0, endTime := none, duration := none,
          recordingUrl := some "/old", recordingPassword := none,
          transcript := none, transcriptText := none, speakers := none,
          summary := none, bulletPoints := none, aiNotes := none }], [], [], 0⟩
      ⟨"MP4", "dl1", "pl", 10, "shared", "s", "e"⟩).1.meetings.find?
        (fun x => x.id == "m1") =
      some { id := "m1", userId := "u1", zoomMeetingId := "z1", uuid := "uu",
             topic := "Weekly", startTime := 0, endTime := none, duration := none,
             recordingUrl := some "/api/recordings/recording-m1-m1-0.mp4",
             recordingPassword := none, transcript := none,
             transcriptText := none, speakers := none, summary := none,
             bulletPoints := none, aiNotes := none } :=
  ((batchImportRecordings_refines_single
    ⟨fun _ => .ok ⟨some [⟨"MP4", "dl1", "pl", 10, "shared", "s", "e"⟩], none⟩,
     fun _ => .ok [1], fun _ _ => .ok (), fun s => s, 0⟩
    ["MP4"]).2.2.2.2.2
    { id := "m1", userId := "u1", zoomMeetingId := "z1", uuid := "uu",
      topic := "Weekly", startTime := 0, endTime := none, duration := none,
      recordingUrl := some "/old", recordingPassword := none,
      transcript := none, transcriptText := none, speakers := none,
      summary := none, bulletPoints := none, aiNotes := none }
    ⟨[{ id := "m1", userId := "u1", zoomMeetingId := "z1", uuid := "uu",
        topic := "Weekly", startTime := 0, endTime := none, duration := none,
        recordingUrl := some "/old", recordingPassword := none,
        transcript := none, transcriptText := none, speakers := none,
        summary := none, bulletPoints := none, aiNotes := none }], [], [], 0⟩
    ⟨"MP4", "dl1", "pl", 10, "shared", "s", "e"⟩
    "/api/recordings/recording-m1-m1-0.mp4"
    { id := "m1", userId := "u1", zoomMeetingId := "z1", uuid := "uu",
      topic := "Weekly", startTime := 0, endTime := none, duration := none,
      recordingUrl := some "/old", recordingPassword := none,
      transcript := none, transcriptText := none, speakers := none,
      summary := none, bulletPoints := none, aiNotes := none }
    rfl rfl rfl)

end Transmeet

